import Mathlib

/-!
Verification of the `teacher_assist` AI-service generation workflow.

This file gives a shallow embedding of the Python workflow code
(`ai_service/nodes/validators.py`, `ai_service/nodes/formatters.py`,
`ai_service/nodes/llm_client.py`, `ai_service/utils/cost_tracker.py`,
`ai_service/workflow.py`) and proves properties of the embedded
definitions.  External collaborators (the JSON decoder of the standard
library, the database, the LLM endpoint, the pricing HTTP endpoint, the
template file) are modelled as explicit parameters; everything else is
translated from the repository source.
-/

/-- A JSON value, as produced by Python's `json.loads`.  Numbers are
restricted to integers, which covers every value exercised here. -/
inductive Json where
  | str : String → Json
  | num : Int → Json
  | bool : Bool → Json
  | null : Json
  | arr : List Json → Json
  | obj : List (String × Json) → Json
deriving Repr

/- Constants from `ai_service/constants.py`. -/

def MAX_ACTIVITY_LENGTH : Nat := 500

def MAX_THEME_LENGTH : Nat := 200

def MAX_MODULES : Nat := 3

def MAX_CURRICULUM_REFS : Nat := 10

def MAX_OBJECTIVES : Nat := 5

def MIN_OBJECTIVE_LENGTH : Nat := 10

/- ### Python string primitives

`str.strip()`, `x in s`, `str.replace`, `str.find`, `str.lower()` are
modelled on the character list underlying the string. -/

/-- Characters stripped by Python's `str.strip()` (ASCII whitespace; the
messages and inputs considered here contain no exotic Unicode space). -/
def isPySpace (c : Char) : Bool :=
  c == ' ' || c == '\t' || c == '\n' || c == '\r' || c == '\x0b' || c == '\x0c'

/-- `str.strip()` on a character list. -/
def stripList (cs : List Char) : List Char :=
  ((cs.dropWhile isPySpace).reverse.dropWhile isPySpace).reverse

/-- Python `s.strip()`. -/
def pyStrip (s : String) : String :=
  String.mk (stripList s.data)

/-- One occurrence test: does `t` occur as a contiguous run in `s`?
This is Python's `t in s` (for the non-empty needles used here). -/
def occursIn (t : List Char) : List Char → Bool
  | [] => t.isEmpty
  | c :: rest => t.isPrefixOf (c :: rest) || occursIn t rest

/-- Python `needle in hay` on strings. -/
def strContains (hay needle : String) : Bool :=
  occursIn needle.data hay.data

/-- Python's `str.lower()` restricted to the characters appearing in this
codebase's messages: ASCII letters and the Polish capitals. -/
def lowerChar (c : Char) : Char :=
  if 'A' ≤ c ∧ c ≤ 'Z' then Char.ofNat (c.toNat + 32)
  else if c = 'Ł' then 'ł'
  else if c = 'Ó' then 'ó'
  else if c = 'Ą' then 'ą'
  else if c = 'Ę' then 'ę'
  else if c = 'Ś' then 'ś'
  else if c = 'Ż' then 'ż'
  else if c = 'Ź' then 'ź'
  else if c = 'Ć' then 'ć'
  else if c = 'Ń' then 'ń'
  else c

/-- Python `s.lower()`. -/
def pyLower (s : String) : String :=
  String.mk (s.data.map lowerChar)

/-- Core loop of decimal rendering, fuelled by the digit count (the fuel
`n + 1` of `natRepr` always suffices). -/
def natReprCore : Nat → Nat → List Char → List Char
  | 0, _, acc => acc
  | fuel + 1, n, acc =>
      let d := Char.ofNat (48 + n % 10)
      if n < 10 then d :: acc
      else natReprCore fuel (n / 10) (d :: acc)

/-- Decimal rendering of a natural number, as Python's `str`/f-string
formatting of a non-negative `int` produces. -/
def natRepr (n : Nat) : String :=
  String.mk (natReprCore (n + 1) n [])

/- ### `validate_input` (ai_service/nodes/validators.py, lines 24-59) -/

/-- Result state of the `validate_input` node: the sanitized inputs plus
the validation outcome. -/
structure InputResult where
  activity : String
  theme : String
  validation_errors : List String
  validation_passed : Bool
deriving Repr

/-- The empty-activity message of `validate_input`. -/
def emptyActivityMsg : String := "Pole \x27activity\x27 nie może być puste"

/-- The overlong-activity message of `validate_input`. -/
def tooLongActivityMsg (n : Nat) : String :=
  "Pole \x27activity\x27 jest za długie (" ++ natRepr n ++
    " znaków, max " ++ natRepr MAX_ACTIVITY_LENGTH ++ ")"

/-- The overlong-theme message of `validate_input`. -/
def tooLongThemeMsg (n : Nat) : String :=
  "Pole \x27theme\x27 jest za długie (" ++ natRepr n ++
    " znaków, max " ++ natRepr MAX_THEME_LENGTH ++ ")"

/-- `validate_input`: trims both fields, rejects an empty or overlong
activity and an overlong theme. -/
def validate_input (activity theme : String) : InputResult :=
  let a := pyStrip activity
  let t := pyStrip theme
  let activityErrors : List String :=
    if a = "" then [emptyActivityMsg]
    else if a.length > MAX_ACTIVITY_LENGTH then [tooLongActivityMsg a.length]
    else []
  let themeErrors : List String :=
    if t ≠ "" ∧ t.length > MAX_THEME_LENGTH then [tooLongThemeMsg t.length]
    else []
  let errors := activityErrors ++ themeErrors
  { activity := a
    theme := t
    validation_errors := errors
    validation_passed := errors.isEmpty }

/- ### `validate_output` (ai_service/nodes/validators.py, lines 62-187)

The parsed LLM output is a JSON object; only the three required keys are
relevant to validation, so presence is modelled with `Option`.  The
valid-modules and valid-curriculum-code sets are the string sets the
Python code extracts from the loaded database rows. -/

/-- The parsed LLM output (`llm_parsed_output`): the three fields of the
JSON object, `none` when the key is missing. -/
structure ParsedOutput where
  modules : Option Json
  curriculum_refs : Option Json
  objectives : Option Json
deriving Repr

/-- Membership of a JSON item in a set of strings (Python `x in set_of_str`
is `False` for any non-string hashable `x`; unhashable items, on which
Python would raise `TypeError`, do not occur in the runs modelled here). -/
def memberOfStrSet (valid : List String) : Json → Bool
  | Json.str s => valid.contains s
  | _ => false

/-- Rendering of a JSON item inside a `", ".join(...)` error message.
Python's `join` is only ever applied to string items in the runs modelled
here (it raises `TypeError` otherwise); non-string items render as `""`. -/
def jsonAsStr : Json → String
  | Json.str s => s
  | _ => ""

/-- Step 1 of `validate_output`: one error per missing required field, in
the fixed field order `modules`, `curriculum_refs`, `objectives`. -/
def structuralErrors (p : ParsedOutput) : List String :=
  (if p.modules.isNone then ["Brak wymaganego pola: modules"] else []) ++
  (if p.curriculum_refs.isNone then ["Brak wymaganego pola: curriculum_refs"] else []) ++
  (if p.objectives.isNone then ["Brak wymaganego pola: objectives"] else [])

/-- Step 2 of `validate_output`: the errors contributed by the `modules`
field. -/
def moduleErrors (valid_modules : List String) : Json → List String
  | Json.arr modules =>
      if modules.length = 0 then ["Wymagany co najmniej 1 moduł"]
      else if modules.length > MAX_MODULES then
        ["Zbyt wiele modułów (" ++ natRepr modules.length ++ ", max " ++
          natRepr MAX_MODULES ++ ")"]
      else
        let invalid_modules := modules.filter (fun m => !(memberOfStrSet valid_modules m))
        if invalid_modules.isEmpty then []
        else ["Nieprawidłowe moduły: " ++
          String.intercalate ", " (invalid_modules.map jsonAsStr)]
  | _ => ["Pole \x27modules\x27 musi być listą"]

/-- The loop in step 3 of `validate_output`, accumulating
`(valid_refs, invalid_refs)` in traversal order. -/
def partitionRefs (valid_codes : List String) : List Json → List Json × List Json
  | [] => ([], [])
  | r :: rs =>
      let (v, i) := partitionRefs valid_codes rs
      if memberOfStrSet valid_codes r then (r :: v, i) else (v, r :: i)

/-- Step 3 of `validate_output` (lenient mode): the errors, the warnings
(`log_warning` calls, modelled as data), and the possibly rewritten field
value. -/
def curriculumStep (valid_codes : List String) (v : Json) :
    List String × List String × Json :=
  match v with
  | Json.arr curriculum_refs =>
      if curriculum_refs.length = 0 then
        (["Wymagany co najmniej 1 kod podstawy programowej"], [], v)
      else
        let vi := partitionRefs valid_codes curriculum_refs
        let valid_refs := vi.1
        let invalid_refs := vi.2
        let warnings :=
          if invalid_refs.isEmpty then []
          else ["Odfiltrowano nieprawidłowe kody podstawy programowej: " ++
            String.intercalate ", " (invalid_refs.map jsonAsStr)]
        let errors :=
          if valid_refs.length = 0 then
            ["Wszystkie kody podstawy programowej są nieprawidłowe: " ++
              String.intercalate ", " (invalid_refs.map jsonAsStr)]
          else if valid_refs.length > MAX_CURRICULUM_REFS then
            ["Zbyt wiele kodów podstawy programowej (" ++ natRepr valid_refs.length ++
              ", max " ++ natRepr MAX_CURRICULUM_REFS ++ ")"]
          else []
        let newValue :=
          if !invalid_refs.isEmpty && !valid_refs.isEmpty then Json.arr valid_refs else v
        (errors, warnings, newValue)
  | _ => (["Pole \x27curriculum_refs\x27 musi być listą"], [], v)

/-- The body of the per-item loop in step 4 of `validate_output`:
the error contributed by objective number `i` (numbered from 1). -/
def objItemCheck (i : Nat) : Json → List String
  | Json.str s =>
      if (pyStrip s).length < MIN_OBJECTIVE_LENGTH then
        ["Cel " ++ natRepr i ++ " jest za krótki (min " ++
          natRepr MIN_OBJECTIVE_LENGTH ++ " znaków)"]
      else []
  | _ => ["Cel " ++ natRepr i ++ " musi być tekstem"]

/-- The per-item loop in step 4 of `validate_output` (`enumerate(objectives, 1)`). -/
def objectiveItemErrors : Nat → List Json → List String
  | _, [] => []
  | i, obj :: rest => objItemCheck i obj ++ objectiveItemErrors (i + 1) rest

/-- Step 4 of `validate_output`: the errors contributed by the
`objectives` field. -/
def objectiveErrors : Json → List String
  | Json.arr objectives =>
      if objectives.length = 0 then ["Wymagany co najmniej 1 cel edukacyjny"]
      else if objectives.length > MAX_OBJECTIVES then
        ["Zbyt wiele celów edukacyjnych (" ++ natRepr objectives.length ++
          ", max " ++ natRepr MAX_OBJECTIVES ++ ")"]
      else objectiveItemErrors 1 objectives
  | _ => ["Pole \x27objectives\x27 musi być listą"]

/-- Result state of the `validate_output` node. -/
structure OutputResult where
  llm_parsed_output : ParsedOutput
  validation_passed : Bool
  validation_errors : List String
  warnings : List String
deriving Repr

/-- `validate_output`: structural short-circuit, then the strict modules
check, the lenient curriculum-reference filtering, and the objectives
check; the error list accumulates every violation of steps 2-4. -/
def validate_output (valid_modules valid_codes : List String)
    (parsed_output : ParsedOutput) : OutputResult :=
  let sErrs := structuralErrors parsed_output
  if !sErrs.isEmpty then
    { llm_parsed_output := parsed_output
      validation_passed := false
      validation_errors := sErrs
      warnings := [] }
  else
    let mErrs := moduleErrors valid_modules (parsed_output.modules.getD (Json.arr []))
    let cStep := curriculumStep valid_codes (parsed_output.curriculum_refs.getD (Json.arr []))
    let oErrs := objectiveErrors (parsed_output.objectives.getD (Json.arr []))
    let errors := mErrs ++ cStep.1 ++ oErrs
    { llm_parsed_output := { parsed_output with curriculum_refs := some cStep.2.2 }
      validation_passed := errors.isEmpty
      validation_errors := errors
      warnings := cStep.2.1 }

/- ### A concrete JSON decoder

`json.loads` is an external collaborator; the workflow definitions below
take it as a parameter.  For evaluating theorems at concrete inputs we
also provide a small executable decoder, `jsonParse`, which agrees with
`json.loads` on the concrete documents used in this file (objects,
arrays, escape-free strings, integers, booleans, null; the whole input
must be consumed up to trailing whitespace). -/

/-- JSON insignificant whitespace. -/
def skipWs (cs : List Char) : List Char :=
  cs.dropWhile (fun c => c == ' ' || c == '\t' || c == '\n' || c == '\r')

/-- Body of a string literal (the opening quote already consumed); escape
sequences are not needed for the documents in this file and are rejected. -/
def parseStrBody : List Char → List Char → Option (String × List Char)
  | [], _ => none
  | c :: rest, acc =>
      if c = '"' then some (String.mk acc.reverse, rest)
      else if c = '\\' then none
      else parseStrBody rest (c :: acc)

/-- A non-empty run of decimal digits. -/
def parseNat (cs : List Char) : Option (Nat × List Char) :=
  let ds := cs.takeWhile Char.isDigit
  if ds.isEmpty then none
  else some (ds.foldl (fun a c => a * 10 + (c.toNat - 48)) 0, cs.dropWhile Char.isDigit)

mutual

/-- One JSON value, fuelled by the nesting depth. -/
def parseVal : Nat → List Char → Option (Json × List Char)
  | 0, _ => none
  | fuel + 1, input =>
      match skipWs input with
      | [] => none
      | c :: rest =>
          if c = '"' then
            match parseStrBody rest [] with
            | some (s, r) => some (Json.str s, r)
            | none => none
          else if c = '[' then
            match skipWs rest with
            | ']' :: r => some (Json.arr [], r)
            | _ => parseArrItems fuel rest []
          else if c = '{' then
            match skipWs rest with
            | '}' :: r => some (Json.obj [], r)
            | _ => parseObjItems fuel rest []
          else if c = 't' then
            if "rue".data.isPrefixOf rest then some (Json.bool true, rest.drop 3) else none
          else if c = 'f' then
            if "alse".data.isPrefixOf rest then some (Json.bool false, rest.drop 4) else none
          else if c = 'n' then
            if "ull".data.isPrefixOf rest then some (Json.null, rest.drop 3) else none
          else if c = '-' then
            match parseNat rest with
            | some (n, r) => some (Json.num (-(n : Int)), r)
            | none => none
          else
            match parseNat (c :: rest) with
            | some (n, r) => some (Json.num (n : Int), r)
            | none => none

/-- Comma-separated array items up to `]`. -/
def parseArrItems : Nat → List Char → List Json → Option (Json × List Char)
  | 0, _, _ => none
  | fuel + 1, input, acc =>
      match parseVal fuel input with
      | none => none
      | some (v, r) =>
          match skipWs r with
          | ',' :: r2 => parseArrItems fuel r2 (v :: acc)
          | ']' :: r2 => some (Json.arr (v :: acc).reverse, r2)
          | _ => none

/-- Comma-separated `"key": value` members up to `}`. -/
def parseObjItems : Nat → List Char → List (String × Json) → Option (Json × List Char)
  | 0, _, _ => none
  | fuel + 1, input, acc =>
      match skipWs input with
      | '"' :: rest =>
          match parseStrBody rest [] with
          | none => none
          | some (k, r) =>
              match skipWs r with
              | ':' :: r2 =>
                  match parseVal fuel r2 with
                  | none => none
                  | some (v, r3) =>
                      match skipWs r3 with
                      | ',' :: r4 => parseObjItems fuel r4 ((k, v) :: acc)
                      | '}' :: r4 => some (Json.obj ((k, v) :: acc).reverse, r4)
                      | _ => none
              | _ => none
      | _ => none

end

/-- Decode a whole JSON document. -/
def jsonParse (s : String) : Option Json :=
  match parseVal (s.data.length + 2) s.data with
  | some (v, r) => if (skipWs r).isEmpty then some v else none
  | none => none

/-- The concrete `json.loads` instantiation used at concrete inputs:
decoded value on success, exception text on failure. -/
def jsonLoads (s : String) : Except String Json :=
  match jsonParse s with
  | some v => Except.ok v
  | none => Except.error ("Expecting value: " ++ s)

/- ### `parse_llm_response` (ai_service/nodes/validators.py, lines 190-241) -/

/-- Index of the first occurrence of `needle` in a character list
(Python `str.find`, `none` for Python's `-1`). -/
def findSub : List Char → List Char → Option Nat
  | [], needle => if needle.isEmpty then some 0 else none
  | c :: rest, needle =>
      if needle.isPrefixOf (c :: rest) then some 0
      else (findSub rest needle).map (· + 1)

/-- Python `dict` lookup on the members of a decoded JSON object
(a duplicated key keeps the last value, as `json.loads` does). -/
def dictLookup : List (String × Json) → String → Option Json
  | [], _ => none
  | (k0, v0) :: rest, k =>
      match dictLookup rest k with
      | some v => some v
      | none => if k0 = k then some v0 else none

/-- View of a decoded response as the `llm_parsed_output` mapping.  A
non-object document has none of the required keys present. -/
def toParsedOutput : Json → ParsedOutput
  | Json.obj kvs =>
      { modules := dictLookup kvs "modules"
        curriculum_refs := dictLookup kvs "curriculum_refs"
        objectives := dictLookup kvs "objectives" }
  | _ => { modules := none, curriculum_refs := none, objectives := none }

/-- `parse_llm_response`: direct decode, then the ```` ```json ````-fence
extraction fallback.  Returns the parsed output, the updated error list,
and the `validation_passed` write (`none` when the node leaves the flag
untouched).  `json_loads` abstracts Python's `json.loads`; the `.error`
payload is the exception text. -/
def parse_llm_response (json_loads : String → Except String Json)
    (llm_raw_response : String) (priorErrors : List String) :
    ParsedOutput × List String × Option Bool :=
  match json_loads llm_raw_response with
  | Except.ok parsed => (toParsedOutput parsed, priorErrors, none)
  | Except.error _ =>
      if strContains llm_raw_response "```json" then
        let cs := llm_raw_response.data
        let start := (findSub cs "```json".data).getD 0 + 7
        let rest := cs.drop start
        let json_str :=
          match findSub rest "```".data with
          | some e => rest.take e
          | none => rest.take (rest.length - 1)
        match json_loads (pyStrip (String.mk json_str)) with
        | Except.ok parsed => (toParsedOutput parsed, priorErrors, none)
        | Except.error e =>
            ({ modules := none, curriculum_refs := none, objectives := none },
              priorErrors ++ ["Błąd parsowania JSON: " ++ e], some false)
      else
        ({ modules := none, curriculum_refs := none, objectives := none },
          priorErrors ++ ["Odpowiedź nie jest prawidłowym JSON"], some false)

/- ### Response formatters (ai_service/nodes/formatters.py) -/

/-- The success record built by `format_success`.  (The pydantic target
model in `common/models.py` declares a singular `module: str` field while
the formatter passes `modules=`; the record here is what the formatter
call constructs.) -/
structure FillWorkPlanResponse where
  activity : String
  modules : Json
  curriculum_refs : Json
  objectives : Json
deriving Repr

/-- The error record built by `format_error`; `details` holds the
`{"validation_errors": errors}` payload. -/
structure ErrorResponse where
  error : String
  error_code : String
  details : Option (List String)
deriving Repr, DecidableEq

/-- `format_success`: echoes the activity and the three parsed fields. -/
def format_success (activity : String) (parsed : ParsedOutput) : FillWorkPlanResponse :=
  { activity := activity
    modules := parsed.modules.getD (Json.arr [])
    curriculum_refs := parsed.curriculum_refs.getD (Json.arr [])
    objectives := parsed.objectives.getD (Json.arr []) }

/-- Keyword test for JSON-parsing errors (`"JSON" in err or "json" in err.lower()`). -/
def isJsonError (err : String) : Bool :=
  strContains err "JSON" || strContains (pyLower err) "json"

/-- Keyword test for module errors (`"moduł" in err.lower()`). -/
def isModuleError (err : String) : Bool :=
  strContains (pyLower err) "moduł"

/-- Keyword test for curriculum errors (`"podstawy programowej" in err.lower()`). -/
def isCurriculumError (err : String) : Bool :=
  strContains (pyLower err) "podstawy programowej"

/-- Keyword test for objective errors (`"cel" in err.lower()`). -/
def isObjectiveError (err : String) : Bool :=
  strContains (pyLower err) "cel"

/-- Keyword test for activity-input errors. -/
def isActivityError (err : String) : Bool :=
  strContains (pyLower err) "activity" || strContains (pyLower err) "aktywność"

/-- Keyword test for theme-input errors. -/
def isThemeError (err : String) : Bool :=
  strContains (pyLower err) "theme" || strContains (pyLower err) "temat"

/-- Keyword test for template errors. -/
def isTemplateError (err : String) : Bool :=
  strContains (pyLower err) "szablon" || strContains (pyLower err) "template"

/-- Keyword test for LLM/API errors. -/
def isLlmError (err : String) : Bool :=
  strContains (pyLower err) "llm" || strContains (pyLower err) "api"

/-- The `elif` chain of `format_error`: the machine-readable code and the
Polish user-facing message chosen by keyword matching, in source order. -/
def classifyError (errors : List String) : String × String :=
  if errors.any isJsonError then
    ("PARSING_ERROR",
      "Nie udało się przetworzyć odpowiedzi AI. " ++
        "Odpowiedź nie zawiera prawidłowego formatu JSON. " ++
        "Spróbuj ponownie z innym opisem aktywności.")
  else if errors.any isModuleError then
    ("INVALID_MODULES",
      "AI wygenerował nieprawidłowe moduły edukacyjne. " ++
        (errors.filter isModuleError).headD "Sprawdź listę dostępnych modułów." ++
        " Spróbuj ponownie lub zmień opis aktywności.")
  else if errors.any isCurriculumError then
    ("INVALID_CURRICULUM_REFS",
      "AI wygenerował nieprawidłowe kody podstawy programowej. " ++
        "Wszystkie kody zostały odfiltrowane jako nieprawidłowe. " ++
        "Spróbuj ponownie z bardziej szczegółowym opisem aktywności.")
  else if errors.any isObjectiveError then
    ("INVALID_OBJECTIVES",
      "AI wygenerował nieprawidłowe cele edukacyjne. " ++
        (errors.filter isObjectiveError).headD "" ++ " Spróbuj ponownie.")
  else if errors.any isActivityError then
    ("INVALID_INPUT",
      "Nieprawidłowe dane wejściowe. " ++
        (errors.filter isActivityError).headD "Sprawdź pole aktywności.")
  else if errors.any isThemeError then
    ("INVALID_INPUT",
      "Nieprawidłowe dane wejściowe. " ++
        (errors.filter isThemeError).headD "Sprawdź pole tematu.")
  else if errors.any isTemplateError then
    ("TEMPLATE_ERROR",
      "Błąd wczytania szablonu promptu. " ++
        "Skontaktuj się z administratorem systemu.")
  else if errors.any isLlmError then
    ("LLM_ERROR",
      "Błąd komunikacji z systemem AI. " ++
        "Sprawdź połączenie internetowe i spróbuj ponownie za chwilę.")
  else
    ("INTERNAL_ERROR",
      "Wystąpił nieoczekiwany błąd podczas generowania metadanych. " ++
        "Szczegóły: " ++ errors.headD "Nieznany błąd")

/-- `format_error`: classifies the accumulated error strings into one
machine-readable code by keyword matching and packages message, code and
the raw error list. -/
def format_error (validation_errors : List String) : ErrorResponse :=
  { error := (classifyError validation_errors).2
    error_code := (classifyError validation_errors).1
    details := if validation_errors.isEmpty then none else some validation_errors }

/- ### `extract_reasoning_and_json` (ai_service/nodes/llm_client.py, lines 65-120) -/

/-- The reasoning-tag block of `extract_reasoning_and_json`: returns
`(reasoning, json_str)` after the `<think>`/`<thinking>` handling.
Slices follow Python `content[a:b]` semantics. -/
def stripReasoning (content : String) : String × String :=
  let cs := content.data
  if strContains content "<think>" && strContains content "</think>" then
    let think_start := (findSub cs "<think>".data).getD 0 + 7
    let think_end := (findSub cs "</think>".data).getD 0
    (pyStrip (String.mk ((cs.drop think_start).take (think_end - think_start))),
      pyStrip (String.mk (cs.drop (think_end + 8))))
  else if strContains content "<thinking>" && strContains content "</thinking>" then
    let think_start := (findSub cs "<thinking>".data).getD 0 + 10
    let think_end := (findSub cs "</thinking>".data).getD 0
    (pyStrip (String.mk ((cs.drop think_start).take (think_end - think_start))),
      pyStrip (String.mk (cs.drop (think_end + 11))))
  else ("", content)

/-- Python `s.replace(needle, "")` for a non-empty needle `n :: nt`:
left-to-right scan, non-overlapping matches, the replaced region is not
rescanned.  The second argument counts characters of a recognised match
still to be consumed (skipped) - this makes the scan structurally
recursive on the text. -/
def replDel (n : Char) (nt : List Char) : List Char → Nat → List Char
  | [], _ => []
  | _ :: rest, skip + 1 => replDel n nt rest skip
  | c :: rest, 0 =>
      if (n :: nt).isPrefixOf (c :: rest) then replDel n nt rest nt.length
      else c :: replDel n nt rest 0

/-- Python `s.replace(needle, "")`. -/
def pyReplaceDel (s : String) (needle : String) : String :=
  match needle.data with
  | [] => s
  | n :: nt => String.mk (replDel n nt s.data 0)

/-- The fence cleanup line:
`json_str.replace("```json", "").replace("```", "").strip()`. -/
def cleanFences (s : String) : String :=
  pyStrip (pyReplaceDel (pyReplaceDel s "```json") "```")

/-- The span matched by `re.search(r"\x7b.*\x7d", s, re.DOTALL)`: from the
first opening brace to the last closing brace after it, if any (leftmost
start, greedy extent). -/
def braceSpan (cs : List Char) : Option (List Char) :=
  match cs.dropWhile (fun c => !(c == '{')) with
  | [] => none
  | c :: rest =>
      match (c :: rest).reverse.dropWhile (fun ch => !(ch == '}')) with
      | [] => none
      | r => some r.reverse

/-- The parse block of `extract_reasoning_and_json`: direct decode, then
the greedy brace-span fallback; the fallback's own decode failure
propagates as Python's `json.JSONDecodeError` would. -/
def parseWithBraceFallback (json_loads : String → Except String Json)
    (json_str : String) : Except String Json :=
  match json_loads json_str with
  | Except.ok j => Except.ok j
  | Except.error _ =>
      match braceSpan json_str.data with
      | some sub => json_loads (String.mk sub)
      | none => Except.error ("Could not parse JSON from: " ++ json_str)

/-- `extract_reasoning_and_json`: reasoning-tag stripping, fence cleanup,
then decode with the brace-span fallback. -/
def extract_reasoning_and_json (json_loads : String → Except String Json)
    (response_content : String) : Except String (String × Json) :=
  let rj := stripReasoning response_content
  match parseWithBraceFallback json_loads (cleanFences rj.2) with
  | Except.ok j => Except.ok (rj.1, j)
  | Except.error e => Except.error e

/- ### Cost tracking (ai_service/utils/cost_tracker.py and the cost block
of `OpenRouterClient.generate`, ai_service/nodes/llm_client.py 298-323)

Prices are modelled as rationals; Python's floats introduce no rounding
relevant to the properties proved here. -/

/-- `calculate_cost`. -/
def calculate_cost (input_tokens output_tokens : Nat)
    (prompt_price completion_price : ℚ) : ℚ :=
  input_tokens * prompt_price + output_tokens * completion_price

/-- `PricingCache._get_fallback_pricing`: the hard-coded cache-level
fallback, $0.00000025 and $0.00000125 per token. -/
def getFallbackPricing : ℚ × ℚ := (25 / 100000000, 125 / 100000000)

/-- Defaults of `ai_service_fallback_prompt_price` /
`ai_service_fallback_completion_price` in `ai_service/config.py`. -/
def defaultConfiguredFallbackPrices : ℚ × ℚ := (25 / 100000000, 125 / 100000000)

/-- `PricingCache.fetch_pricing` on a cache miss: the models-endpoint
outcome is a parameter (list of `(id, prompt_price, completion_price)` on
success); an HTTP failure or an absent model id falls back to the
hard-coded cache-level prices.  The TTL cache and the lock serialise
repeated calls and do not change the returned value. -/
def fetch_pricing (fetchOutcome : Except String (List (String × ℚ × ℚ)))
    (model : String) : ℚ × ℚ :=
  match fetchOutcome with
  | Except.error _ => getFallbackPricing
  | Except.ok data =>
      match data.find? (fun md => md.1 == model) with
      | some md => (md.2.1, md.2.2)
      | none => getFallbackPricing

/-- The cost block of `OpenRouterClient.generate`: the whole pricing step
is attempted (`pricingStep` is its outcome; `Except.error` models an
exception escaping it), and on failure the configured fallback prices are
substituted directly. -/
def generateCost (pricingStep : Except String (ℚ × ℚ))
    (fallback_prompt_price fallback_completion_price : ℚ)
    (input_tokens output_tokens : Nat) : ℚ :=
  match pricingStep with
  | Except.ok pc => calculate_cost input_tokens output_tokens pc.1 pc.2
  | Except.error _ =>
      input_tokens * fallback_prompt_price + output_tokens * fallback_completion_price

/- ### The workflow (ai_service/workflow.py, with the node bodies from
ai_service/nodes/)

The state channels are plain `LastValue` channels: `WorkflowState` is a
plain `TypedDict`, so a node's returned value for a key replaces the
previous value (despite comments in the loaders assuming an
`operator.add` reducer for `validation_errors`).  External effects (the
four database reads, the template file, `str.format`, the LLM call) are
parameters. -/

/-- The graph nodes of `create_workflow`. -/
inductive WorkflowNode where
  | validate_input
  | load_modules
  | load_curriculum_refs
  | load_examples
  | load_template
  | construct_prompt
  | generate_llm
  | parse_response
  | validate_output
  | format_success
  | format_error
deriving Repr, DecidableEq

/-- The terminal result of a run. -/
inductive FinalResponse where
  | success : FillWorkPlanResponse → FinalResponse
  | error : ErrorResponse → FinalResponse
deriving Repr

/-- The workflow state channels used by the modelled nodes. -/
structure WFState where
  activity : String
  theme : String
  available_modules : List String
  curriculum_codes : List String
  prompt_template : String
  constructed_prompt : String
  llm_raw_response : String
  llm_parsed_output : ParsedOutput
  validation_passed : Bool
  validation_errors : List String
  final_response : Option FinalResponse
deriving Repr

/-- Outcomes of the external collaborators for one run. -/
structure WorkflowDeps where
  dbModules : Except String (List String)
  dbCurriculum : Except String (List String)
  dbExamples : Except String Unit
  templateFile : Except String String
  templateRender : Except String String
  llmCall : Except String String
  json_loads : String → Except String Json

/-- The fresh state of one invocation. -/
def initState (activity theme : String) : WFState :=
  { activity := activity, theme := theme
    available_modules := [], curriculum_codes := []
    prompt_template := "", constructed_prompt := ""
    llm_raw_response := ""
    llm_parsed_output := { modules := none, curriculum_refs := none, objectives := none }
    validation_passed := false, validation_errors := []
    final_response := none }

/-- The `validate_input` node applied to the state. -/
def applyValidateInput (s : WFState) : WFState :=
  let r := validate_input s.activity s.theme
  { s with activity := r.activity, theme := r.theme
           validation_errors := r.validation_errors
           validation_passed := r.validation_passed }

/-- `load_modules`: database outcome or degraded-empty plus its error
(the returned `validation_errors` value replaces the channel). -/
def applyLoadModules (deps : WorkflowDeps) (s : WFState) : WFState :=
  match deps.dbModules with
  | Except.ok ms => { s with available_modules := ms }
  | Except.error e =>
      { s with available_modules := []
               validation_errors := ["Błąd podczas ładowania modułów z bazy danych: " ++ e] }

/-- `load_curriculum_refs` (the reference codes are what downstream
validation consumes). -/
def applyLoadCurriculum (deps : WorkflowDeps) (s : WFState) : WFState :=
  match deps.dbCurriculum with
  | Except.ok codes => { s with curriculum_codes := codes }
  | Except.error e =>
      { s with curriculum_codes := []
               validation_errors :=
                 ["Błąd podczas ładowania podstawy programowej z bazy danych: " ++ e] }

/-- `load_examples` (examples feed only the prompt, whose rendering is a
parameter; the failure branch still records its error). -/
def applyLoadExamples (deps : WorkflowDeps) (s : WFState) : WFState :=
  match deps.dbExamples with
  | Except.ok _ => s
  | Except.error e =>
      { s with validation_errors := ["Błąd podczas ładowania przykładów z bazy danych: " ++ e] }

/-- `load_template`: skipped when a template is already cached in state. -/
def applyLoadTemplate (deps : WorkflowDeps) (s : WFState) : WFState :=
  if s.prompt_template ≠ "" then s
  else
    match deps.templateFile with
    | Except.ok t => { s with prompt_template := t }
    | Except.error e =>
        { s with prompt_template := ""
                 validation_errors := ["Błąd podczas ładowania szablonu promptu: " ++ e] }

/-- `construct_prompt`: `template.format(...)` outcome is a parameter;
the failure branch shown is the `KeyError` one (the generic handler
differs only in the message prefix). -/
def applyConstructPrompt (deps : WorkflowDeps) (s : WFState) : WFState :=
  match deps.templateRender with
  | Except.ok p => { s with constructed_prompt := p }
  | Except.error e =>
      { s with constructed_prompt := ""
               validation_errors := s.validation_errors ++ ["Brak wymaganego pola w szablonie: " ++ e]
               validation_passed := false }

/-- `generate_with_llm` (ai_service/nodes/llm_generator.py): empty-prompt
guard, then the client call outcome. -/
def applyGenerateLlm (deps : WorkflowDeps) (s : WFState) : WFState :=
  if s.constructed_prompt = "" then
    { s with llm_raw_response := ""
             validation_errors := s.validation_errors ++ ["Brak skonstruowanego promptu"]
             validation_passed := false }
  else
    match deps.llmCall with
    | Except.ok raw => { s with llm_raw_response := raw }
    | Except.error e =>
        { s with llm_raw_response := ""
                 validation_errors :=
                   s.validation_errors ++ ["Błąd podczas generowania odpowiedzi LLM: " ++ e]
                 validation_passed := false }

/-- The `parse_response` node applied to the state. -/
def applyParseResponse (deps : WorkflowDeps) (s : WFState) : WFState :=
  let r := parse_llm_response deps.json_loads s.llm_raw_response s.validation_errors
  { s with llm_parsed_output := r.1
           validation_errors := r.2.1
           validation_passed := r.2.2.getD s.validation_passed }

/-- The `validate_output` node applied to the state (its returned
`validation_errors` value replaces the channel). -/
def applyValidateOutput (s : WFState) : WFState :=
  let r := validate_output s.available_modules s.curriculum_codes s.llm_parsed_output
  { s with llm_parsed_output := r.llm_parsed_output
           validation_passed := r.validation_passed
           validation_errors := r.validation_errors }

/-- The `format_error` node applied to the state. -/
def applyFormatError (s : WFState) : WFState :=
  { s with final_response := some (FinalResponse.error (format_error s.validation_errors)) }

/-- The `format_success` node applied to the state. -/
def applyFormatSuccess (s : WFState) : WFState :=
  { s with final_response := some (FinalResponse.success (format_success s.activity s.llm_parsed_output)) }

/-- One run of the compiled graph of `create_workflow`: entry at
`validate_input`; `should_continue_after_input_validation` routes on a
non-empty `validation_errors`; the four loaders fan out and join before
`construct_prompt`; `should_continue_after_output_validation` routes on
`validation_passed`.  Returns the executed nodes in order and the final
state. -/
def runWorkflow (deps : WorkflowDeps) (activity theme : String) :
    List WorkflowNode × WFState :=
  let s1 := applyValidateInput (initState activity theme)
  if !s1.validation_errors.isEmpty then
    ([WorkflowNode.validate_input, WorkflowNode.format_error], applyFormatError s1)
  else
    let s2 := applyLoadTemplate deps (applyLoadExamples deps
      (applyLoadCurriculum deps (applyLoadModules deps s1)))
    let s3 := applyConstructPrompt deps s2
    let s4 := applyGenerateLlm deps s3
    let s5 := applyParseResponse deps s4
    let s6 := applyValidateOutput s5
    if s6.validation_passed then
      ([WorkflowNode.validate_input, WorkflowNode.load_modules,
        WorkflowNode.load_curriculum_refs, WorkflowNode.load_examples,
        WorkflowNode.load_template, WorkflowNode.construct_prompt,
        WorkflowNode.generate_llm, WorkflowNode.parse_response,
        WorkflowNode.validate_output, WorkflowNode.format_success],
        applyFormatSuccess s6)
    else
      ([WorkflowNode.validate_input, WorkflowNode.load_modules,
        WorkflowNode.load_curriculum_refs, WorkflowNode.load_examples,
        WorkflowNode.load_template, WorkflowNode.construct_prompt,
        WorkflowNode.generate_llm, WorkflowNode.parse_response,
        WorkflowNode.validate_output, WorkflowNode.format_error],
        applyFormatError s6)

/- ### Helper notions used by the theorem statements -/

/-- The valid members of a curriculum-reference list, in order. -/
def keptRefs (valid_codes : List String) (refs : List Json) : List Json :=
  refs.filter (fun r => memberOfStrSet valid_codes r)

/-- The invalid members of a curriculum-reference list, in order. -/
def droppedRefs (valid_codes : List String) (refs : List Json) : List Json :=
  refs.filter (fun r => !(memberOfStrSet valid_codes r))

/- ### General-purpose lemmas -/

/-- A string is non-empty exactly when it has at least one character. -/
lemma ne_empty_iff_one_le_length (s : String) : s ≠ "" ↔ 1 ≤ s.length := by
  rcases s with ⟨data⟩
  cases data with
  | nil => simp [String.length]
  | cons c cs => simp [String.length, String.ext_iff]

/-- The accumulation loop of step 3 computes the two filters. -/
lemma partitionRefs_eq_filters (vc : List String) (rs : List Json) :
    partitionRefs vc rs = (keptRefs vc rs, droppedRefs vc rs) := by
  induction rs with
  | nil => simp [partitionRefs, keptRefs, droppedRefs]
  | cons r rs ih =>
      simp only [partitionRefs, ih, keptRefs, droppedRefs, List.filter]
      by_cases h : memberOfStrSet vc r <;> simp [h]

/- ### Claims -/

/-- C2.  Input validation: both fields are trimmed; validation passes iff
the trimmed activity length is in [1, 500] and the trimmed theme length is
in [0, 200] (no rejection on character content); an activity empty after
trimming fails with an input-related error appended. -/
theorem validate_input_spec (activity theme : String) :
    ((validate_input activity theme).validation_passed = true ↔
      (1 ≤ (pyStrip activity).length ∧ (pyStrip activity).length ≤ MAX_ACTIVITY_LENGTH ∧
        (pyStrip theme).length ≤ MAX_THEME_LENGTH))
    ∧ (validate_input activity theme).activity = pyStrip activity
    ∧ (validate_input activity theme).theme = pyStrip theme
    ∧ (pyStrip activity = "" →
        (validate_input activity theme).validation_passed = false ∧
        "Pole \x27activity\x27 nie może być puste" ∈ (validate_input activity theme).validation_errors) := by
  refine ⟨?_, by simp [validate_input], by simp [validate_input], ?_⟩
  · simp only [validate_input]
    split_ifs with h1 h2 h3 h3 h3 <;>
      simp_all [MAX_ACTIVITY_LENGTH, MAX_THEME_LENGTH,
        ne_empty_iff_one_le_length (pyStrip activity),
        ne_empty_iff_one_le_length (pyStrip theme)] ;
      omega
  · intro h
    simp [validate_input, h, emptyActivityMsg]

/-- Witness for C2 at an all-whitespace activity. -/
theorem validate_input_spec_witness :
    pyStrip "   " = "" ∧
    ((validate_input "   " "Test").validation_passed = false ∧
      "Pole \x27activity\x27 nie może być puste" ∈ (validate_input "   " "Test").validation_errors) :=
  ⟨by decide, (validate_input_spec "   " "Test").2.2.2 (by decide)⟩

/-- C3.  Structural short-circuit: with any required field missing,
`validate_output` fails immediately with exactly one error per missing
field; no module, curriculum or objective error appears (the error list
holds only the three missing-field messages), and the parsed output is
left unrewritten. -/
theorem structural_short_circuit_spec (vm vc : List String) (p : ParsedOutput)
    (h : p.modules = none ∨ p.curriculum_refs = none ∨ p.objectives = none) :
    validate_output vm vc p =
      { llm_parsed_output := p, validation_passed := false,
        validation_errors := structuralErrors p, warnings := [] }
    ∧ structuralErrors p ≠ []
    ∧ (structuralErrors p).count "Brak wymaganego pola: modules" =
        (if p.modules.isNone then 1 else 0)
    ∧ (structuralErrors p).count "Brak wymaganego pola: curriculum_refs" =
        (if p.curriculum_refs.isNone then 1 else 0)
    ∧ (structuralErrors p).count "Brak wymaganego pola: objectives" =
        (if p.objectives.isNone then 1 else 0)
    ∧ ∀ e ∈ structuralErrors p,
        e = "Brak wymaganego pola: modules" ∨
        e = "Brak wymaganego pola: curriculum_refs" ∨
        e = "Brak wymaganego pola: objectives" := by
  rcases p with ⟨m, c, o⟩
  cases m <;> cases c <;> cases o <;>
    simp_all [validate_output, structuralErrors, List.count_cons]

/-- A parsed output with the `objectives` key missing, for the C3 witness. -/
def missingObjectivesExample : ParsedOutput :=
  { modules := some (Json.arr []), curriculum_refs := some (Json.arr []),
    objectives := none }

/-- Witness for C3 with only the `objectives` field missing. -/
theorem structural_short_circuit_spec_witness :
    (missingObjectivesExample.modules = none ∨
      missingObjectivesExample.curriculum_refs = none ∨
      missingObjectivesExample.objectives = none) ∧
    (validate_output [] [] missingObjectivesExample =
      { llm_parsed_output := missingObjectivesExample, validation_passed := false,
        validation_errors := structuralErrors missingObjectivesExample, warnings := [] }
    ∧ structuralErrors missingObjectivesExample ≠ []
    ∧ (structuralErrors missingObjectivesExample).count "Brak wymaganego pola: modules" =
        (if missingObjectivesExample.modules.isNone then 1 else 0)
    ∧ (structuralErrors missingObjectivesExample).count "Brak wymaganego pola: curriculum_refs" =
        (if missingObjectivesExample.curriculum_refs.isNone then 1 else 0)
    ∧ (structuralErrors missingObjectivesExample).count "Brak wymaganego pola: objectives" =
        (if missingObjectivesExample.objectives.isNone then 1 else 0)
    ∧ ∀ e ∈ structuralErrors missingObjectivesExample,
        e = "Brak wymaganego pola: modules" ∨
        e = "Brak wymaganego pola: curriculum_refs" ∨
        e = "Brak wymaganego pola: objectives") :=
  ⟨Or.inr (Or.inr rfl),
    structural_short_circuit_spec [] [] missingObjectivesExample (Or.inr (Or.inr rfl))⟩

/-- C4.  Strict module validation: with the `modules` field present, the
check is error-free iff the list has 1-3 items all in the valid set; a
length of 0 or more than 3 always fails regardless of item validity; a
1-3 item list with any non-member yields the single aggregated error
naming all invalid entries; and a failing modules check fails the whole
validation. -/
theorem modules_strict_spec (vm vc : List String) (ms : List Json) (cv ov : Json) :
    (moduleErrors vm (Json.arr ms) = [] ↔
      (1 ≤ ms.length ∧ ms.length ≤ MAX_MODULES ∧ ∀ m ∈ ms, memberOfStrSet vm m = true))
    ∧ (ms.length = 0 ∨ MAX_MODULES < ms.length → moduleErrors vm (Json.arr ms) ≠ [])
    ∧ (1 ≤ ms.length → ms.length ≤ MAX_MODULES →
        ms.filter (fun m => !(memberOfStrSet vm m)) ≠ [] →
        moduleErrors vm (Json.arr ms) =
          ["Nieprawidłowe moduły: " ++ String.intercalate ", "
            ((ms.filter (fun m => !(memberOfStrSet vm m))).map jsonAsStr)])
    ∧ (moduleErrors vm (Json.arr ms) ≠ [] →
        (validate_output vm vc
          { modules := some (Json.arr ms), curriculum_refs := some cv,
            objectives := some ov }).validation_passed = false) := by
  have hiff : moduleErrors vm (Json.arr ms) = [] ↔
      (1 ≤ ms.length ∧ ms.length ≤ MAX_MODULES ∧ ∀ m ∈ ms, memberOfStrSet vm m = true) := by
    simp only [moduleErrors]
    split_ifs with h1 h2 h3
    · simp [h1]
    · simp only [MAX_MODULES] at *
      simp only [List.cons_ne_self, false_iff]
      rintro ⟨-, hb, -⟩
      omega
    · have hnil := List.isEmpty_iff.mp h3
      rw [List.filter_eq_nil_iff] at hnil
      simp only [true_iff, List.nil_eq]
      refine ⟨by omega, by omega, fun m hm => ?_⟩
      have := hnil m hm
      simpa using this
    · simp only [List.cons_ne_self, false_iff]
      rintro ⟨-, -, hall⟩
      apply h3
      rw [List.isEmpty_iff, List.filter_eq_nil_iff]
      intro a ha
      simp [hall a ha]
  refine ⟨hiff, ?_, ?_, ?_⟩
  · intro h hnil
    rw [hiff] at hnil
    simp only [MAX_MODULES] at *
    omega
  · intro h1 h2 h3
    simp only [moduleErrors]
    split_ifs with g1 g2 g3
    · omega
    · omega
    · exact absurd (List.isEmpty_iff.mp g3) h3
    · rfl
  · intro h
    simp only [validate_output, structuralErrors]
    simp only [Option.isNone_some, if_neg]
    simp [h]

/-- Witness for C4: a two-module list containing one invalid name. -/
theorem modules_strict_spec_witness :
    moduleErrors ["MATEMATYKA"] (Json.arr [Json.str "MATEMATYKA", Json.str "PLASTYKA"]) =
      ["Nieprawidłowe moduły: PLASTYKA"] ∧
    (validate_output ["MATEMATYKA"] ["4.15"]
      { modules := some (Json.arr [Json.str "MATEMATYKA", Json.str "PLASTYKA"]),
        curriculum_refs := some (Json.arr [Json.str "4.15"]),
        objectives := some (Json.arr [Json.str "0123456789"]) }).validation_passed = false := by
  have h := modules_strict_spec ["MATEMATYKA"] ["4.15"]
    [Json.str "MATEMATYKA", Json.str "PLASTYKA"]
    (Json.arr [Json.str "4.15"]) (Json.arr [Json.str "0123456789"])
  have h3 := h.2.2.1 (by decide) (by decide) (by simp [memberOfStrSet])
  refine ⟨h3.trans (by rfl), h.2.2.2 ?_⟩
  rw [h3]
  simp


/-- The emptiness of the per-item objective loop does not depend on the
starting index: it is empty exactly when every item is a string of
trimmed length at least 10. -/
lemma objectiveItemErrors_eq_nil_iff (k : Nat) (os : List Json) :
    objectiveItemErrors k os = [] ↔
      ∀ o ∈ os, ∃ s, o = Json.str s ∧ MIN_OBJECTIVE_LENGTH ≤ (pyStrip s).length := by
  induction os generalizing k with
  | nil => simp [objectiveItemErrors]
  | cons o rest ih =>
      simp only [objectiveItemErrors, List.append_eq_nil, ih (k + 1), List.mem_cons]
      constructor
      · rintro ⟨hhead, htail⟩
        intro x hx
        rcases hx with hx | hx
        · subst hx
          cases x with
          | str s =>
              refine ⟨s, rfl, ?_⟩
              by_contra hlt
              simp [objItemCheck, Nat.lt_of_not_le hlt] at hhead
          | num n => simp [objItemCheck] at hhead
          | bool b => simp [objItemCheck] at hhead
          | null => simp [objItemCheck] at hhead
          | arr a => simp [objItemCheck] at hhead
          | obj a => simp [objItemCheck] at hhead
        · exact htail x hx
      · intro hall
        constructor
        · rcases hall o (Or.inl rfl) with ⟨s, rfl, hlen⟩
          simp [objItemCheck, Nat.not_lt.mpr hlen]
        · intro x hx
          exact hall x (Or.inr hx)


/-- Each item check of the per-item objective loop is contained in the
loop result. -/
lemma objItemCheck_mem_itemErrors (k : Nat) (os : List Json) :
    ∀ i, (h : i < os.length) →
      ∀ e ∈ objItemCheck (k + i) (os.get ⟨i, h⟩), e ∈ objectiveItemErrors k os := by
  induction os generalizing k with
  | nil => intro i h; simp at h
  | cons o rest ih =>
      intro i h e he
      cases i with
      | zero =>
          simp only [List.get] at he
          simp only [objectiveItemErrors, List.mem_append]
          left
          simpa using he
      | succ j =>
          simp only [List.get] at he
          simp only [objectiveItemErrors, List.mem_append]
          right
          have hk : k + (j + 1) = (k + 1) + j := by omega
          rw [hk] at he
          exact ih (k + 1) j (by simpa using h) e he


/-- C5.  Objectives validation: with the `objectives` field present, the
check is error-free iff the list has 1-5 items, each a string of trimmed
length at least 10; each violating item contributes its own numbered
error; a 9-character objective fails and a 10-character one passes. -/
theorem objectives_spec (os : List Json) :
    (objectiveErrors (Json.arr os) = [] ↔
      (1 ≤ os.length ∧ os.length ≤ MAX_OBJECTIVES ∧
        ∀ o ∈ os, ∃ s, o = Json.str s ∧ MIN_OBJECTIVE_LENGTH ≤ (pyStrip s).length))
    ∧ (1 ≤ os.length → os.length ≤ MAX_OBJECTIVES →
        ∀ i, (h : i < os.length) →
          ∀ e ∈ objItemCheck (i + 1) (os.get ⟨i, h⟩), e ∈ objectiveErrors (Json.arr os))
    ∧ objectiveErrors (Json.arr [Json.str "123456789"]) =
        ["Cel 1 jest za krótki (min 10 znaków)"]
    ∧ objectiveErrors (Json.arr [Json.str "1234567890"]) = [] := by
  refine ⟨?_, ?_, by decide, by decide⟩
  · simp only [objectiveErrors]
    split_ifs with h1 h2
    · simp [h1]
    · simp only [MAX_OBJECTIVES] at *
      simp only [List.cons_ne_self, false_iff]
      rintro ⟨-, hb, -⟩
      omega
    · rw [objectiveItemErrors_eq_nil_iff]
      simp only [MAX_OBJECTIVES] at *
      constructor
      · intro hall
        exact ⟨by omega, by omega, hall⟩
      · rintro ⟨-, -, hall⟩
        exact hall
  · intro hlo hhi i h e he
    simp only [objectiveErrors]
    split_ifs with h1 h2
    · omega
    · omega
    · have := objItemCheck_mem_itemErrors 1 os i h e
      rw [Nat.add_comm 1 i] at this
      exact this he

/-- Witness for C5 at a single too-short objective. -/
theorem objectives_spec_witness :
    "Cel 1 jest za krótki (min 10 znaków)" ∈ objectiveErrors (Json.arr [Json.str "short"]) := by
  have h := (objectives_spec [Json.str "short"]).2.1 (by decide) (by decide) 0 (by decide)
  exact h "Cel 1 jest za krótki (min 10 znaków)" (by decide)

/-- `validate_output` with all three fields present: structural check
passes and the three step results are assembled. -/
lemma validate_output_present (vm vc : List String) (mv cv ov : Json) :
    validate_output vm vc { modules := some mv, curriculum_refs := some cv, objectives := some ov } =
      { llm_parsed_output :=
          { modules := some mv, curriculum_refs := some (curriculumStep vc cv).2.2,
            objectives := some ov }
        validation_passed :=
          (moduleErrors vm mv ++ (curriculumStep vc cv).1 ++ objectiveErrors ov).isEmpty
        validation_errors := moduleErrors vm mv ++ (curriculumStep vc cv).1 ++ objectiveErrors ov
        warnings := (curriculumStep vc cv).2.1 } := by
  simp [validate_output, structuralErrors]

/-- The curriculum-step errors on a non-empty list, via the two filters. -/
lemma curriculumStep_fst (vc : List String) (r0 : Json) (rs : List Json) :
    (curriculumStep vc (Json.arr (r0 :: rs))).1 =
      (if (keptRefs vc (r0 :: rs)).length = 0 then
        ["Wszystkie kody podstawy programowej są nieprawidłowe: " ++
          String.intercalate ", " ((droppedRefs vc (r0 :: rs)).map jsonAsStr)]
      else if (keptRefs vc (r0 :: rs)).length > MAX_CURRICULUM_REFS then
        ["Zbyt wiele kodów podstawy programowej (" ++
          natRepr (keptRefs vc (r0 :: rs)).length ++ ", max " ++
          natRepr MAX_CURRICULUM_REFS ++ ")"]
      else []) := by
  simp only [curriculumStep, partitionRefs_eq_filters]
  simp

/-- The curriculum-step warnings on a non-empty list. -/
lemma curriculumStep_warnings (vc : List String) (r0 : Json) (rs : List Json) :
    (curriculumStep vc (Json.arr (r0 :: rs))).2.1 =
      (if (droppedRefs vc (r0 :: rs)).isEmpty then []
      else ["Odfiltrowano nieprawidłowe kody podstawy programowej: " ++
        String.intercalate ", " ((droppedRefs vc (r0 :: rs)).map jsonAsStr)]) := by
  simp only [curriculumStep, partitionRefs_eq_filters]
  simp

/-- The rewritten curriculum field on a non-empty list. -/
lemma curriculumStep_value (vc : List String) (r0 : Json) (rs : List Json) :
    (curriculumStep vc (Json.arr (r0 :: rs))).2.2 =
      (if !(droppedRefs vc (r0 :: rs)).isEmpty && !(keptRefs vc (r0 :: rs)).isEmpty then
        Json.arr (keptRefs vc (r0 :: rs))
      else Json.arr (r0 :: rs)) := by
  simp only [curriculumStep, partitionRefs_eq_filters]
  simp

/-- With a non-empty valid subset, the curriculum field ends up holding
exactly the valid subset (whether or not a rewrite took place). -/
lemma validate_output_rewrites_kept (vm vc : List String) (mv ov r0 : Json) (rs : List Json)
    (hk : keptRefs vc (r0 :: rs) ≠ []) :
    (validate_output vm vc
      { modules := some mv, curriculum_refs := some (Json.arr (r0 :: rs)),
        objectives := some ov }).llm_parsed_output.curriculum_refs =
      some (Json.arr (keptRefs vc (r0 :: rs))) := by
  rw [validate_output_present]
  simp only [curriculumStep_value]
  by_cases hd : droppedRefs vc (r0 :: rs) = []
  · have hall : ∀ a ∈ r0 :: rs, memberOfStrSet vc a = true := by
      intro a ha
      have := List.filter_eq_nil_iff.mp hd a ha
      simpa using this
    have hself : keptRefs vc (r0 :: rs) = r0 :: rs := by
      rw [keptRefs, List.filter_eq_self]
      exact hall
    simp [hd, hself]
  · simp [List.isEmpty_iff, hd, hk]

/-- The spec's four-code curriculum example. -/
def fourRefsExample : ParsedOutput :=
  { modules := some (Json.arr [Json.str "MATEMATYKA"]),
    curriculum_refs := some (Json.arr
      [Json.str "4.15", Json.str "99.99", Json.str "4.18", Json.str "bad"]),
    objectives := some (Json.arr [Json.str "Cel dziesiec znakow"]) }

/-- The spec's all-invalid curriculum example. -/
def twoBadRefsExample : ParsedOutput :=
  { modules := some (Json.arr [Json.str "MATEMATYKA"]),
    curriculum_refs := some (Json.arr [Json.str "99.99", Json.str "bad"]),
    objectives := some (Json.arr [Json.str "Cel dziesiec znakow"]) }

/-- C1.  Lenient curriculum filtering: on a non-empty curriculum list the
step is error-free iff the valid subset is non-empty and within the limit
of 10; with a non-empty valid subset the field is rewritten to exactly
the valid members; dropped codes are reported in a warning, not an error;
an empty valid subset fails validation.  The spec's two concrete examples
behave as stated. -/
theorem curriculum_lenient_spec (vm vc : List String) (mv ov r0 : Json) (rs : List Json) :
    ((curriculumStep vc (Json.arr (r0 :: rs))).1 = [] ↔
      (keptRefs vc (r0 :: rs) ≠ [] ∧ (keptRefs vc (r0 :: rs)).length ≤ MAX_CURRICULUM_REFS))
    ∧ (keptRefs vc (r0 :: rs) ≠ [] →
        (validate_output vm vc
          { modules := some mv, curriculum_refs := some (Json.arr (r0 :: rs)),
            objectives := some ov }).llm_parsed_output.curriculum_refs =
          some (Json.arr (keptRefs vc (r0 :: rs))))
    ∧ (droppedRefs vc (r0 :: rs) ≠ [] →
        (validate_output vm vc
          { modules := some mv, curriculum_refs := some (Json.arr (r0 :: rs)),
            objectives := some ov }).warnings =
          ["Odfiltrowano nieprawidłowe kody podstawy programowej: " ++
            String.intercalate ", " ((droppedRefs vc (r0 :: rs)).map jsonAsStr)])
    ∧ (keptRefs vc (r0 :: rs) = [] →
        (validate_output vm vc
          { modules := some mv, curriculum_refs := some (Json.arr (r0 :: rs)),
            objectives := some ov }).validation_passed = false)
    ∧ (validate_output ["MATEMATYKA"] ["4.15", "4.18"] fourRefsExample).validation_passed = true
    ∧ (validate_output ["MATEMATYKA"] ["4.15", "4.18"]
        fourRefsExample).llm_parsed_output.curriculum_refs =
        some (Json.arr [Json.str "4.15", Json.str "4.18"])
    ∧ (validate_output ["MATEMATYKA"] ["4.15", "4.18"] fourRefsExample).warnings =
        ["Odfiltrowano nieprawidłowe kody podstawy programowej: 99.99, bad"]
    ∧ (validate_output ["MATEMATYKA"] ["4.15", "4.18"] twoBadRefsExample).validation_passed = false := by
  refine ⟨?_, ?_, ?_, ?_, by decide, by rfl, by decide, by decide⟩
  · rw [curriculumStep_fst]
    split_ifs with h1 h2
    · rw [List.length_eq_zero] at h1
      simp [h1]
    · simp only [List.cons_ne_self, false_iff]
      rintro ⟨-, hb⟩
      omega
    · simp only [true_iff, List.nil_eq]
      refine ⟨?_, by omega⟩
      intro hnil
      rw [hnil] at h1
      simp at h1
  · intro hk
    exact validate_output_rewrites_kept vm vc mv ov r0 rs hk
  · intro hd
    rw [validate_output_present]
    simp only [curriculumStep_warnings]
    simp [List.isEmpty_iff, hd]
  · intro hk
    rw [validate_output_present]
    simp only [curriculumStep_fst]
    simp [hk]

/-- Witness for C1: one valid and one invalid code; the field is
rewritten to the valid subset. -/
theorem curriculum_lenient_spec_witness :
    keptRefs ["4.15", "4.18"] [Json.str "4.15", Json.str "99.99"] ≠ [] ∧
    (validate_output ["MATEMATYKA"] ["4.15", "4.18"]
      { modules := some (Json.arr [Json.str "MATEMATYKA"]),
        curriculum_refs := some (Json.arr [Json.str "4.15", Json.str "99.99"]),
        objectives := some (Json.arr [Json.str "Cel dziesiec znakow"]) }).llm_parsed_output.curriculum_refs =
      some (Json.arr (keptRefs ["4.15", "4.18"] [Json.str "4.15", Json.str "99.99"])) := by
  have hk : keptRefs ["4.15", "4.18"] [Json.str "4.15", Json.str "99.99"] ≠ [] :=
    fun hnil => absurd (congrArg List.length hnil) (by decide)
  exact ⟨hk, (curriculum_lenient_spec ["MATEMATYKA"] ["4.15", "4.18"]
    (Json.arr [Json.str "MATEMATYKA"]) (Json.arr [Json.str "Cel dziesiec znakow"])
    (Json.str "4.15") [Json.str "99.99"]).2.1 hk⟩

/-- C10.  The rewritten curriculum field is exactly the subsequence of the
original list consisting of its valid members: the kept list is the
filter of the original (so order and duplicates are preserved and no code
is rewritten), it is a sublist of the original, every kept item is valid
and every valid item is kept, and every dropped item is invalid. -/
theorem curriculum_filter_subseq_spec (vm vc : List String) (mv ov r0 : Json) (rs : List Json)
    (h : keptRefs vc (r0 :: rs) ≠ []) :
    (validate_output vm vc
      { modules := some mv, curriculum_refs := some (Json.arr (r0 :: rs)),
        objectives := some ov }).llm_parsed_output.curriculum_refs =
      some (Json.arr (keptRefs vc (r0 :: rs)))
    ∧ (keptRefs vc (r0 :: rs)).Sublist (r0 :: rs)
    ∧ (∀ x ∈ keptRefs vc (r0 :: rs), memberOfStrSet vc x = true)
    ∧ (∀ x ∈ r0 :: rs, memberOfStrSet vc x = true → x ∈ keptRefs vc (r0 :: rs))
    ∧ (∀ x ∈ droppedRefs vc (r0 :: rs), memberOfStrSet vc x = false) := by
  refine ⟨validate_output_rewrites_kept vm vc mv ov r0 rs h, List.filter_sublist _, ?_, ?_, ?_⟩
  · intro x hx
    exact (List.mem_filter.mp hx).2
  · intro x hx hv
    exact List.mem_filter.mpr ⟨hx, hv⟩
  · intro x hx
    have := (List.mem_filter.mp hx).2
    simpa using this

/-- Witness for C10 with a duplicated valid code after an invalid one. -/
theorem curriculum_filter_subseq_spec_witness :
    keptRefs ["4.15"] [Json.str "bad", Json.str "4.15", Json.str "4.15"] ≠ [] ∧
    (validate_output [] ["4.15"]
      { modules := some (Json.arr []),
        curriculum_refs := some (Json.arr [Json.str "bad", Json.str "4.15", Json.str "4.15"]),
        objectives := some (Json.arr []) }).llm_parsed_output.curriculum_refs =
      some (Json.arr (keptRefs ["4.15"] [Json.str "bad", Json.str "4.15", Json.str "4.15"])) ∧
    (keptRefs ["4.15"] [Json.str "bad", Json.str "4.15", Json.str "4.15"]).Sublist
      [Json.str "bad", Json.str "4.15", Json.str "4.15"] := by
  have hk : keptRefs ["4.15"] [Json.str "bad", Json.str "4.15", Json.str "4.15"] ≠ [] :=
    fun hnil => absurd (congrArg List.length hnil) (by decide)
  have h := curriculum_filter_subseq_spec [] ["4.15"] (Json.arr []) (Json.arr [])
    (Json.str "bad") [Json.str "4.15", Json.str "4.15"] hk
  exact ⟨hk, h.1, h.2.1⟩

/-- Counterexample for C9 as stated: with non-default configured fallback
prices (1/1000 per token), a failing pricing HTTP fetch yields a cost of
3/2000 (computed from the hard-coded cache-level fallback prices), not
the 2 that the configured prices would give — the claim's "falls back to
the configured default per-token prices" does not hold for failures
absorbed inside `PricingCache.fetch_pricing`. -/
theorem pricing_fallback_counterexample :
    fetch_pricing (Except.error "network error") "anthropic/claude-3.5-haiku" = getFallbackPricing
    ∧ generateCost
        (Except.ok (fetch_pricing (Except.error "network error") "anthropic/claude-3.5-haiku"))
        (1 / 1000) (1 / 1000) 1000 1000 = 3 / 2000
    ∧ (1000 : ℚ) * (1 / 1000) + 1000 * (1 / 1000) = 2
    ∧ (3 / 2000 : ℚ) ≠ 2 := by
  refine ⟨rfl, ?_, by norm_num, by norm_num⟩
  simp only [fetch_pricing, generateCost, calculate_cost, getFallbackPricing]
  norm_num

/-- C9 (amended).  Pricing-failure resilience: a pricing-step exception
reaching the generation client substitutes the configured fallback
prices; an HTTP failure or an unknown model inside the pricing cache
substitutes the hard-coded cache fallback prices, which equal the
defaults of the configured fallback settings; in all cases generation
proceeds with cost = input_tokens x prompt_price + output_tokens x
completion_price, strictly positive for positive token counts (and
positive prices in the configured case). -/
theorem pricing_fallback_spec (e : String) (model : String) (data : List (String × ℚ × ℚ))
    (inTok outTok : Nat) (fp fc : ℚ) :
    generateCost (Except.error e) fp fc inTok outTok = inTok * fp + outTok * fc
    ∧ fetch_pricing (Except.error e) model = getFallbackPricing
    ∧ (data.find? (fun md => md.1 == model) = none →
        fetch_pricing (Except.ok data) model = getFallbackPricing)
    ∧ generateCost (Except.ok (fetch_pricing (Except.error e) model)) fp fc inTok outTok =
        inTok * getFallbackPricing.1 + outTok * getFallbackPricing.2
    ∧ getFallbackPricing = defaultConfiguredFallbackPrices
    ∧ (1 ≤ inTok → 1 ≤ outTok → 0 < fp → 0 < fc →
        0 < generateCost (Except.error e) fp fc inTok outTok)
    ∧ (1 ≤ inTok → 1 ≤ outTok →
        0 < generateCost (Except.ok (fetch_pricing (Except.error e) model)) fp fc inTok outTok) := by
  refine ⟨rfl, rfl, ?_, rfl, rfl, ?_, ?_⟩
  · intro h
    simp [fetch_pricing, h]
  · intro hi ho hfp hfc
    simp only [generateCost]
    have h1 : (0 : ℚ) < inTok := by exact_mod_cast hi
    have h2 : (0 : ℚ) < outTok := by exact_mod_cast ho
    positivity
  · intro hi ho
    simp only [generateCost, fetch_pricing, getFallbackPricing, calculate_cost]
    have h1 : (0 : ℚ) < inTok := by exact_mod_cast hi
    have h2 : (0 : ℚ) < outTok := by exact_mod_cast ho
    positivity

/-- Witness for C9 at the spec's token counts. -/
theorem pricing_fallback_spec_witness :
    0 < generateCost (Except.ok (fetch_pricing (Except.error "timeout") "anthropic/claude-3.5-haiku"))
        (25 / 100000000) (125 / 100000000) 1400 180 :=
  (pricing_fallback_spec "timeout" "anthropic/claude-3.5-haiku" [] 1400 180
    (25 / 100000000) (125 / 100000000)).2.2.2.2.2.2 (by norm_num) (by norm_num)

/-- The machine-readable code of a run's terminal error response. -/
def finalErrorCode (s : WFState) : Option String :=
  match s.final_response with
  | some (FinalResponse.error r) => some r.error_code
  | _ => none

/-- Collaborator outcomes for a run whose LLM returns the plain text
`"Invalid JSON response"` with everything else healthy. -/
def malformedJsonDeps : WorkflowDeps :=
  { dbModules := Except.ok ["MATEMATYKA"], dbCurriculum := Except.ok ["4.15", "4.18"],
    dbExamples := Except.ok (), templateFile := Except.ok "szablon",
    templateRender := Except.ok "prompt", llmCall := Except.ok "Invalid JSON response",
    json_loads := jsonLoads }

/-- C7.  Error classification: `format_error` pairs a code chosen by
keyword matching in the stated precedence order with the raw error list
as detail, and classifies the parse-failure message as PARSING_ERROR.
However, the claim's concrete scenario fails on the code: a run whose LLM
returns plain text `"Invalid JSON response"` terminates with
INTERNAL_ERROR, because `validate_output` overwrites the
`validation_errors` channel (no `operator.add` reducer is declared on
`WorkflowState`, although the loaders' comments assume one), replacing
the parse error with the three structural messages before the formatter
runs. -/
theorem error_classification_spec (errors : List String) :
    (format_error errors).details = (if errors.isEmpty then none else some errors)
    ∧ (format_error errors).error_code =
      (if errors.any isJsonError then "PARSING_ERROR"
      else if errors.any isModuleError then "INVALID_MODULES"
      else if errors.any isCurriculumError then "INVALID_CURRICULUM_REFS"
      else if errors.any isObjectiveError then "INVALID_OBJECTIVES"
      else if errors.any isActivityError then "INVALID_INPUT"
      else if errors.any isThemeError then "INVALID_INPUT"
      else if errors.any isTemplateError then "TEMPLATE_ERROR"
      else if errors.any isLlmError then "LLM_ERROR"
      else "INTERNAL_ERROR")
    ∧ (format_error ["Odpowiedź nie jest prawidłowym JSON"]).error_code = "PARSING_ERROR"
    ∧ (parse_llm_response jsonLoads "Invalid JSON response" []).2.1 =
        ["Odpowiedź nie jest prawidłowym JSON"]
    ∧ finalErrorCode (runWorkflow malformedJsonDeps "Zabawa w sklep z owocami" "Jesień - zbiory").2
        = some "INTERNAL_ERROR"
    ∧ "INTERNAL_ERROR" ≠ "PARSING_ERROR" := by
  refine ⟨rfl, ?_, by decide, by decide, by decide, by decide⟩
  show (classifyError errors).1 = _
  unfold classifyError
  split_ifs <;> rfl

/-- The rendering loop never returns an empty list when given fuel or a
non-empty accumulator. -/
lemma natReprCore_ne_nil (fuel : Nat) : ∀ (n : Nat) (acc : List Char),
    (1 ≤ fuel ∨ acc ≠ []) → natReprCore fuel n acc ≠ [] := by
  induction fuel with
  | zero =>
      intro n acc h
      rcases h with h | h
      · omega
      · simpa [natReprCore] using h
  | succ fuel ih =>
      intro n acc h
      simp only [natReprCore]
      split_ifs
      · simp
      · exact ih (n / 10) _ (Or.inr (by simp))

/-- A rendered number is non-empty. -/
lemma natRepr_ne_nil (n : Nat) : (natRepr n).data ≠ [] := by
  simpa [natRepr] using natReprCore_ne_nil (n + 1) n [] (Or.inl (by omega))

/-- A needle avoiding a character class is a prefix of `zs ++ d :: ys`
(with `d` in the class) exactly when it is a prefix of `zs`. -/
lemma isPrefixOf_append_class (P : Char → Bool) (d : Char) (hd : P d = true)
    (t : List Char) (hT : ∀ c ∈ t, P c = false) :
    ∀ (zs ys : List Char), t.isPrefixOf (zs ++ d :: ys) = t.isPrefixOf zs := by
  induction t with
  | nil => intro zs ys; simp [List.isPrefixOf]
  | cons c t' ih =>
      intro zs ys
      have hc : c ≠ d := by
        intro hcd
        subst hcd
        exact absurd hd (by simp [hT c (List.mem_cons_self c t')])
      cases zs with
      | nil =>
          simp only [List.nil_append, List.isPrefixOf]
          have : (c == d) = false := by simp [hc]
          simp [this, List.isPrefixOf]
      | cons z zs' =>
          simp only [List.cons_append, List.isPrefixOf, List.append_eq]
          rw [ih (fun x hx => hT x (List.mem_cons_of_mem _ hx)) zs' ys]

/-- Occurrence across a class-boundary character splits into the two
sides. -/
lemma occursIn_append_class (P : Char → Bool) (d : Char) (hd : P d = true)
    (t : List Char) (ht : t ≠ []) (hT : ∀ c ∈ t, P c = false) :
    ∀ (zs ys : List Char),
      occursIn t (zs ++ d :: ys) = (occursIn t zs || occursIn t (d :: ys)) := by
  intro zs ys
  induction zs with
  | nil =>
      simp only [List.nil_append, occursIn]
      have hemp : t.isEmpty = false := by
        cases t
        · exact absurd rfl ht
        · rfl
      simp [hemp]
  | cons z zs' ih =>
      have hpre := isPrefixOf_append_class P d hd t hT (z :: zs') ys
      simp only [List.cons_append, List.append_eq] at hpre
      simp only [List.cons_append, occursIn, List.append_eq]
      simp only [occursIn] at ih
      rw [hpre, ih, Bool.or_assoc]

/-- A needle avoiding a character class cannot start inside a block of
class characters. -/
lemma occursIn_class_block (P : Char → Bool) (t : List Char) (ht : t ≠ [])
    (hT : ∀ c ∈ t, P c = false) :
    ∀ (mid ys : List Char), (∀ c ∈ mid, P c = true) →
      occursIn t (mid ++ ys) = occursIn t ys := by
  intro mid
  induction mid with
  | nil => intro ys _; rfl
  | cons m mid' ih =>
      intro ys hm
      simp only [List.cons_append, occursIn, List.append_eq]
      have hpre : t.isPrefixOf (m :: (mid' ++ ys)) = false := by
        cases t with
        | nil => exact absurd rfl ht
        | cons c t' =>
            have hc : c ≠ m := by
              intro hcm
              subst hcm
              exact absurd (hm c (List.mem_cons_self c mid'))
                (by simp [hT c (List.mem_cons_self c t')])
            simp [List.isPrefixOf, hc]
      rw [hpre]
      simp only [Bool.false_or]
      exact ih ys (fun c hc => hm c (List.mem_cons_of_mem _ hc))

/-- Occurrence in a prefix gives occurrence in the whole. -/
lemma occursIn_append_left (t : List Char) :
    ∀ (zs ys : List Char), occursIn t zs = true → occursIn t (zs ++ ys) = true := by
  intro zs
  induction zs with
  | nil =>
      intro ys h
      simp only [occursIn] at h
      have : t = [] := by
        cases t
        · rfl
        · simp [List.isEmpty] at h
      subst this
      cases ys
      · rfl
      · simp [occursIn, List.isPrefixOf]
  | cons z zs' ih =>
      intro ys h
      simp only [occursIn, Bool.or_eq_true] at h ⊢
      rcases h with h | h
      · left
        have hp := List.isPrefixOf_iff_prefix.mp h
        exact List.isPrefixOf_iff_prefix.mpr
          (by simpa [List.cons_append] using hp.trans (List.prefix_append (z :: zs') ys))
      · right
        exact ih ys h


/-- The ten decimal digit characters. -/
def digitChars : List Char := ['0', '1', '2', '3', '4', '5', '6', '7', '8', '9']

/-- Every character produced by the rendering loop is a decimal digit. -/
lemma natReprCore_mem_digits (fuel : Nat) : ∀ (n : Nat) (acc : List Char),
    (∀ c ∈ acc, c ∈ digitChars) → ∀ c ∈ natReprCore fuel n acc, c ∈ digitChars := by
  induction fuel with
  | zero => intro n acc hacc; simpa [natReprCore] using hacc
  | succ fuel ih =>
      intro n acc hacc
      have hdig : Char.ofNat (48 + n % 10) ∈ digitChars := by
        have h : n % 10 < 10 := Nat.mod_lt _ (by norm_num)
        set k := n % 10 with hk
        interval_cases k <;> decide
      simp only [natReprCore]
      split_ifs
      · intro c hc
        rcases List.mem_cons.mp hc with rfl | hc
        · exact hdig
        · exact hacc c hc
      · apply ih
        intro c hc
        rcases List.mem_cons.mp hc with rfl | hc
        · exact hdig
        · exact hacc c hc

/-- Every character of a rendered number is a decimal digit. -/
lemma natRepr_mem_digits (n : Nat) : ∀ c ∈ (natRepr n).data, c ∈ digitChars := by
  simpa [natRepr] using natReprCore_mem_digits (n + 1) n [] (by simp)

/-- Digit characters satisfy `Char.isDigit`. -/
lemma digitChars_isDigit : ∀ c ∈ digitChars, c.isDigit = true := by decide

/-- Lowercasing fixes digit characters. -/
lemma lowerChar_digitChars : ∀ c ∈ digitChars, lowerChar c = c := by decide

/-- A digit-free needle cannot occur in `pre ++ digits ++ sfx` unless it
occurs in `pre` or in `sfx`. -/
lemma occursIn_sandwich_false (needle pre mid sfx : List Char)
    (hne : needle ≠ []) (hnd : ∀ c ∈ needle, c.isDigit = false)
    (hm : ∀ c ∈ mid, c ∈ digitChars) (hmne : mid ≠ [])
    (hp : occursIn needle pre = false) (hs : occursIn needle sfx = false) :
    occursIn needle (pre ++ (mid ++ sfx)) = false := by
  cases mid with
  | nil => exact absurd rfl hmne
  | cons d mid' =>
      have hd : d.isDigit = true := digitChars_isDigit d (hm d (by simp))
      have h1 := occursIn_append_class Char.isDigit d hd needle hne hnd pre (mid' ++ sfx)
      have h2 := occursIn_class_block Char.isDigit needle hne hnd (d :: mid') sfx
        (fun c hc => digitChars_isDigit c (hm c hc))
      simp only [List.cons_append] at h1 h2 ⊢
      rw [h1, h2, hp, hs]
      rfl

/-- Lowercased rendered numbers still consist of digit characters. -/
lemma natRepr_lower_mem_digits (n : Nat) :
    ∀ c ∈ (natRepr n).data.map lowerChar, c ∈ digitChars := by
  intro c hc
  rcases List.mem_map.mp hc with ⟨c0, hc0, rfl⟩
  rw [lowerChar_digitChars c0 (natRepr_mem_digits n c0 hc0)]
  exact natRepr_mem_digits n c0 hc0

/-- A lowercased rendered number is non-empty. -/
lemma natRepr_lower_ne_nil (n : Nat) : (natRepr n).data.map lowerChar ≠ [] := by
  intro h
  exact natRepr_ne_nil n (List.map_eq_nil_iff.mp h)

/-- Keyword absence in the lowercased `prefix-number-suffix` messages. -/
lemma occursIn_lower_sandwich_false (preS sfxS : String) (needle : List Char) (n : Nat)
    (hne : needle ≠ []) (hnd : ∀ c ∈ needle, c.isDigit = false)
    (hp : occursIn needle (preS.data.map lowerChar) = false)
    (hs : occursIn needle (sfxS.data.map lowerChar) = false) :
    occursIn needle ((preS.data ++ ((natRepr n).data ++ sfxS.data)).map lowerChar) = false := by
  simp only [List.map_append]
  exact occursIn_sandwich_false needle _ _ _ hne hnd
    (natRepr_lower_mem_digits n) (natRepr_lower_ne_nil n) hp hs

/-- Keyword absence in the raw `prefix-number-suffix` messages. -/
lemma occursIn_raw_sandwich_false (preS sfxS : String) (needle : List Char) (n : Nat)
    (hne : needle ≠ []) (hnd : ∀ c ∈ needle, c.isDigit = false)
    (hp : occursIn needle preS.data = false)
    (hs : occursIn needle sfxS.data = false) :
    occursIn needle (preS.data ++ ((natRepr n).data ++ sfxS.data)) = false :=
  occursIn_sandwich_false needle _ _ _ hne hnd
    (natRepr_mem_digits n) (natRepr_ne_nil n) hp hs

/-- None of the four earlier classification keywords occurs in the
overlong-activity message, for any length. -/
lemma earlyKeywords_tooLongActivity (n : Nat) :
    isJsonError (tooLongActivityMsg n) = false ∧
    isModuleError (tooLongActivityMsg n) = false ∧
    isCurriculumError (tooLongActivityMsg n) = false ∧
    isObjectiveError (tooLongActivityMsg n) = false := by
  have hdata : (tooLongActivityMsg n).data =
      "Pole \x27activity\x27 jest za długie (".data ++
        ((natRepr n).data ++ " znaków, max 500)".data) := by
    simp [tooLongActivityMsg]
    rfl
  refine ⟨?_, ?_, ?_, ?_⟩
  · show (occursIn "JSON".data (tooLongActivityMsg n).data ||
      occursIn "json".data ((tooLongActivityMsg n).data.map lowerChar)) = false
    rw [hdata,
      occursIn_raw_sandwich_false "Pole \x27activity\x27 jest za długie (" " znaków, max 500)"
        "JSON".data n (by decide) (by decide) (by decide) (by decide),
      occursIn_lower_sandwich_false "Pole \x27activity\x27 jest za długie (" " znaków, max 500)"
        "json".data n (by decide) (by decide) (by decide) (by decide)]
    rfl
  · show occursIn "moduł".data ((tooLongActivityMsg n).data.map lowerChar) = false
    rw [hdata]
    exact occursIn_lower_sandwich_false _ _ _ n (by decide) (by decide) (by decide) (by decide)
  · show occursIn "podstawy programowej".data ((tooLongActivityMsg n).data.map lowerChar) = false
    rw [hdata]
    exact occursIn_lower_sandwich_false _ _ _ n (by decide) (by decide) (by decide) (by decide)
  · show occursIn "cel".data ((tooLongActivityMsg n).data.map lowerChar) = false
    rw [hdata]
    exact occursIn_lower_sandwich_false _ _ _ n (by decide) (by decide) (by decide) (by decide)

/-- None of the four earlier classification keywords occurs in the
overlong-theme message, for any length. -/
lemma earlyKeywords_tooLongTheme (n : Nat) :
    isJsonError (tooLongThemeMsg n) = false ∧
    isModuleError (tooLongThemeMsg n) = false ∧
    isCurriculumError (tooLongThemeMsg n) = false ∧
    isObjectiveError (tooLongThemeMsg n) = false := by
  have hdata : (tooLongThemeMsg n).data =
      "Pole \x27theme\x27 jest za długie (".data ++
        ((natRepr n).data ++ " znaków, max 200)".data) := by
    simp [tooLongThemeMsg]
    rfl
  refine ⟨?_, ?_, ?_, ?_⟩
  · show (occursIn "JSON".data (tooLongThemeMsg n).data ||
      occursIn "json".data ((tooLongThemeMsg n).data.map lowerChar)) = false
    rw [hdata,
      occursIn_raw_sandwich_false "Pole \x27theme\x27 jest za długie (" " znaków, max 200)"
        "JSON".data n (by decide) (by decide) (by decide) (by decide),
      occursIn_lower_sandwich_false "Pole \x27theme\x27 jest za długie (" " znaków, max 200)"
        "json".data n (by decide) (by decide) (by decide) (by decide)]
    rfl
  · show occursIn "moduł".data ((tooLongThemeMsg n).data.map lowerChar) = false
    rw [hdata]
    exact occursIn_lower_sandwich_false _ _ _ n (by decide) (by decide) (by decide) (by decide)
  · show occursIn "podstawy programowej".data ((tooLongThemeMsg n).data.map lowerChar) = false
    rw [hdata]
    exact occursIn_lower_sandwich_false _ _ _ n (by decide) (by decide) (by decide) (by decide)
  · show occursIn "cel".data ((tooLongThemeMsg n).data.map lowerChar) = false
    rw [hdata]
    exact occursIn_lower_sandwich_false _ _ _ n (by decide) (by decide) (by decide) (by decide)

/-- None of the four earlier classification keywords occurs in the
empty-activity message. -/
lemma earlyKeywords_emptyActivity :
    isJsonError emptyActivityMsg = false ∧
    isModuleError emptyActivityMsg = false ∧
    isCurriculumError emptyActivityMsg = false ∧
    isObjectiveError emptyActivityMsg = false := by decide

/-- The empty-activity message matches the activity keyword. -/
lemma isActivityError_emptyActivity : isActivityError emptyActivityMsg = true := by decide

/-- The overlong-activity message matches the activity keyword. -/
lemma isActivityError_tooLongActivity (n : Nat) :
    isActivityError (tooLongActivityMsg n) = true := by
  have hdata : (tooLongActivityMsg n).data =
      "Pole \x27activity\x27 jest za długie (".data ++
        ((natRepr n).data ++ " znaków, max 500)".data) := by
    simp [tooLongActivityMsg]
    rfl
  show (occursIn "activity".data ((tooLongActivityMsg n).data.map lowerChar) ||
    occursIn "aktywność".data ((tooLongActivityMsg n).data.map lowerChar)) = true
  rw [hdata]
  simp only [List.map_append]
  rw [occursIn_append_left "activity".data _ _ (by decide)]
  rfl

/-- The overlong-theme message matches the theme keyword. -/
lemma isThemeError_tooLongTheme (n : Nat) :
    isThemeError (tooLongThemeMsg n) = true := by
  have hdata : (tooLongThemeMsg n).data =
      "Pole \x27theme\x27 jest za długie (".data ++
        ((natRepr n).data ++ " znaków, max 200)".data) := by
    simp [tooLongThemeMsg]
    rfl
  show (occursIn "theme".data ((tooLongThemeMsg n).data.map lowerChar) ||
    occursIn "temat".data ((tooLongThemeMsg n).data.map lowerChar)) = true
  rw [hdata]
  simp only [List.map_append]
  rw [occursIn_append_left "theme".data _ _ (by decide)]
  rfl

/-- Every error `validate_input` can emit is one of its three message
families. -/
lemma validate_input_errors_shape (a t : String) :
    ∀ e ∈ (validate_input a t).validation_errors,
      e = emptyActivityMsg ∨ (∃ n, e = tooLongActivityMsg n) ∨ (∃ n, e = tooLongThemeMsg n) := by
  intro e he
  simp only [validate_input] at he
  rcases List.mem_append.mp he with h | h
  · split_ifs at h with h1 h2
    · left
      simpa using h
    · right; left
      exact ⟨(pyStrip a).length, by simpa using h⟩
    · simp at h
  · split_ifs at h with h1
    · right; right
      exact ⟨(pyStrip t).length, by simpa using h⟩
    · simp at h

/-- Any non-empty error list drawn from the input-validation message
families classifies as INVALID_INPUT. -/
lemma classify_input_errors (errors : List String) (hne : errors ≠ [])
    (hshape : ∀ e ∈ errors,
      e = emptyActivityMsg ∨ (∃ n, e = tooLongActivityMsg n) ∨ (∃ n, e = tooLongThemeMsg n)) :
    (classifyError errors).1 = "INVALID_INPUT" := by
  have hjson : errors.any isJsonError = false := by
    rw [List.any_eq_false]
    intro e he
    rcases hshape e he with rfl | ⟨n, rfl⟩ | ⟨n, rfl⟩
    · simp [earlyKeywords_emptyActivity.1]
    · simp [(earlyKeywords_tooLongActivity n).1]
    · simp [(earlyKeywords_tooLongTheme n).1]
  have hmod : errors.any isModuleError = false := by
    rw [List.any_eq_false]
    intro e he
    rcases hshape e he with rfl | ⟨n, rfl⟩ | ⟨n, rfl⟩
    · simp [earlyKeywords_emptyActivity.2.1]
    · simp [(earlyKeywords_tooLongActivity n).2.1]
    · simp [(earlyKeywords_tooLongTheme n).2.1]
  have hcur : errors.any isCurriculumError = false := by
    rw [List.any_eq_false]
    intro e he
    rcases hshape e he with rfl | ⟨n, rfl⟩ | ⟨n, rfl⟩
    · simp [earlyKeywords_emptyActivity.2.2.1]
    · simp [(earlyKeywords_tooLongActivity n).2.2.1]
    · simp [(earlyKeywords_tooLongTheme n).2.2.1]
  have hobj : errors.any isObjectiveError = false := by
    rw [List.any_eq_false]
    intro e he
    rcases hshape e he with rfl | ⟨n, rfl⟩ | ⟨n, rfl⟩
    · simp [earlyKeywords_emptyActivity.2.2.2]
    · simp [(earlyKeywords_tooLongActivity n).2.2.2]
    · simp [(earlyKeywords_tooLongTheme n).2.2.2]
  by_cases hact : errors.any isActivityError
  · unfold classifyError
    simp [hjson, hmod, hcur, hobj, hact]
  · have hth : errors.any isThemeError = true := by
      rcases errors with _ | ⟨e0, rest⟩
      · exact absurd rfl hne
      rcases hshape e0 (by simp) with he0 | ⟨n, he0⟩ | ⟨n, he0⟩
      · exfalso
        apply hact
        simp only [List.any_cons, Bool.or_eq_true]
        left
        rw [he0]
        exact isActivityError_emptyActivity
      · exfalso
        apply hact
        simp only [List.any_cons, Bool.or_eq_true]
        left
        rw [he0]
        exact isActivityError_tooLongActivity n
      · simp only [List.any_cons, Bool.or_eq_true]
        left
        rw [he0]
        exact isThemeError_tooLongTheme n
    unfold classifyError
    simp [hjson, hmod, hcur, hobj, hact, hth]

/-- C8.  Input-failure short-circuit: whenever input validation fails,
the run executes exactly `validate_input` followed by `format_error` -
no loader, prompt construction, LLM call, parsing or output validation
node runs - and terminates with an Error result carrying the
INVALID_INPUT code. -/
theorem input_failure_short_circuit (deps : WorkflowDeps) (activity theme : String)
    (h : (validate_input activity theme).validation_passed = false) :
    (runWorkflow deps activity theme).1 =
      [WorkflowNode.validate_input, WorkflowNode.format_error]
    ∧ (∀ n ∈ (runWorkflow deps activity theme).1,
        n = WorkflowNode.validate_input ∨ n = WorkflowNode.format_error)
    ∧ WorkflowNode.load_modules ∉ (runWorkflow deps activity theme).1
    ∧ WorkflowNode.load_curriculum_refs ∉ (runWorkflow deps activity theme).1
    ∧ WorkflowNode.load_examples ∉ (runWorkflow deps activity theme).1
    ∧ WorkflowNode.load_template ∉ (runWorkflow deps activity theme).1
    ∧ WorkflowNode.construct_prompt ∉ (runWorkflow deps activity theme).1
    ∧ WorkflowNode.generate_llm ∉ (runWorkflow deps activity theme).1
    ∧ WorkflowNode.parse_response ∉ (runWorkflow deps activity theme).1
    ∧ WorkflowNode.validate_output ∉ (runWorkflow deps activity theme).1
    ∧ finalErrorCode (runWorkflow deps activity theme).2 = some "INVALID_INPUT" := by
  have hIsEmpty : (validate_input activity theme).validation_errors.isEmpty = false := by
    have hp : (validate_input activity theme).validation_passed =
        (validate_input activity theme).validation_errors.isEmpty := by
      simp [validate_input]
    rw [← hp, h]
  have hne : (validate_input activity theme).validation_errors ≠ [] := by
    intro hn
    rw [hn] at hIsEmpty
    simp at hIsEmpty
  have hrun : runWorkflow deps activity theme =
      ([WorkflowNode.validate_input, WorkflowNode.format_error],
        applyFormatError (applyValidateInput (initState activity theme))) := by
    unfold runWorkflow
    rw [if_pos]
    have hv : (applyValidateInput (initState activity theme)).validation_errors =
        (validate_input activity theme).validation_errors := rfl
    show (!(applyValidateInput (initState activity theme)).validation_errors.isEmpty) = true
    rw [hv, hIsEmpty]
    rfl
  refine ⟨by rw [hrun], ?_, by rw [hrun]; simp, by rw [hrun]; simp, by rw [hrun]; simp,
    by rw [hrun]; simp, by rw [hrun]; simp, by rw [hrun]; simp, by rw [hrun]; simp,
    by rw [hrun]; simp, ?_⟩
  · rw [hrun]
    intro n hn
    simpa using hn
  · rw [hrun]
    show some (classifyError (validate_input activity theme).validation_errors).1 =
      some "INVALID_INPUT"
    exact congrArg some
      (classify_input_errors _ hne (validate_input_errors_shape activity theme))

/-- Witness for C8 at the spec's empty-activity input. -/
theorem input_failure_short_circuit_witness :
    (validate_input "" "Test").validation_passed = false ∧
    (runWorkflow malformedJsonDeps "" "Test").1 =
      [WorkflowNode.validate_input, WorkflowNode.format_error] ∧
    finalErrorCode (runWorkflow malformedJsonDeps "" "Test").2 = some "INVALID_INPUT" := by
  have h : (validate_input "" "Test").validation_passed = false := by decide
  have hthm := input_failure_short_circuit malformedJsonDeps "" "Test" h
  exact ⟨h, hthm.1, hthm.2.2.2.2.2.2.2.2.2.2⟩

/-- Occurrence in a suffix gives occurrence in the whole. -/
lemma occursIn_append_right (t : List Char) :
    ∀ (xs ys : List Char), occursIn t ys = true → occursIn t (xs ++ ys) = true := by
  intro xs
  induction xs with
  | nil => intro ys h; simpa using h
  | cons x xs' ih =>
      intro ys h
      simp only [List.cons_append, occursIn, Bool.or_eq_true]
      right
      exact ih ys h

/-- A needle whose head is in a character class cannot occur in a text
avoiding the class. -/
lemma occursIn_head_class (P : Char → Bool) (c0 : Char) (t0 : List Char)
    (hc0 : P c0 = true) :
    ∀ xs, (∀ c ∈ xs, P c = false) → occursIn (c0 :: t0) xs = false := by
  intro xs
  induction xs with
  | nil => intro _; rfl
  | cons x rest ih =>
      intro hxs
      have hx : c0 ≠ x := by
        intro h
        subst h
        exact absurd (hxs c0 (by simp)) (by simp [hc0])
      simp only [occursIn, List.isPrefixOf, Bool.or_eq_true]
      simp [hx, ih (fun c hc => hxs c (List.mem_cons_of_mem _ hc))]

/-- `str.find` skips a block avoiding the needle's head class. -/
lemma findSub_append_class (P : Char → Bool) (c0 : Char) (t0 : List Char)
    (hc0 : P c0 = true) :
    ∀ (xs ys : List Char), (∀ c ∈ xs, P c = false) →
      findSub (xs ++ ys) (c0 :: t0) = (findSub ys (c0 :: t0)).map (· + xs.length) := by
  intro xs
  induction xs with
  | nil =>
      intro ys _
      simp only [List.nil_append, List.length_nil]
      cases h : findSub ys (c0 :: t0) <;> simp
  | cons x xs' ih =>
      intro ys hxs
      have hx : c0 ≠ x := by
        intro h
        subst h
        exact absurd (hxs c0 (by simp)) (by simp [hc0])
      have hpre : (c0 :: t0).isPrefixOf (x :: (xs' ++ ys)) = false := by
        simp [List.isPrefixOf, hx]
      simp only [List.cons_append, findSub, hpre, List.append_eq]
      rw [ih ys (fun c hc => hxs c (List.mem_cons_of_mem _ hc))]
      cases h : findSub ys (c0 :: t0) <;> (simp [List.length_cons]; try omega)

/-- The replacement scan consumes exactly the pending skip count. -/
lemma replDel_skip (n : Char) (nt : List Char) :
    ∀ (xs rest : List Char), replDel n nt (xs ++ rest) xs.length = replDel n nt rest 0 := by
  intro xs
  induction xs with
  | nil => intro rest; rfl
  | cons x xs' ih =>
      intro rest
      simp only [List.cons_append, List.length_cons, replDel]
      exact ih rest

/-- The replacement scan copies a block avoiding the needle head. -/
lemma replDel_no_match (n : Char) (nt : List Char) :
    ∀ (xs ys : List Char), (∀ c ∈ xs, c ≠ n) →
      replDel n nt (xs ++ ys) 0 = xs ++ replDel n nt ys 0 := by
  intro xs
  induction xs with
  | nil => intro ys _; rfl
  | cons x xs' ih =>
      intro ys hxs
      have hx : (n :: nt).isPrefixOf (x :: (xs' ++ ys)) = false := by
        have hne : n ≠ x := fun h => absurd h.symm (hxs x (by simp))
        have hb : (n == x) = false := by simp [hne]
        simp [List.isPrefixOf, hb]
      simp only [List.cons_append, replDel, List.append_eq, hx]
      simp only [Bool.false_eq_true, if_false]
      rw [ih ys (fun c hc => hxs c (List.mem_cons_of_mem _ hc))]

/-- The replacement scan deletes a needle found at the head. -/
lemma replDel_head_match (n : Char) (nt : List Char) (rest : List Char) :
    replDel n nt ((n :: nt) ++ rest) 0 = replDel n nt rest 0 := by
  have hpre : (n :: nt).isPrefixOf ((n :: nt) ++ rest) = true :=
    List.isPrefixOf_iff_prefix.mpr (List.prefix_append _ _)
  simp only [List.cons_append] at hpre
  simp only [List.cons_append, replDel, List.append_eq, hpre, if_true]
  exact replDel_skip n nt nt rest

/-- `dropWhile` passes over a block it accepts entirely. -/
lemma dropWhile_append_all (p : Char → Bool) :
    ∀ (xs ys : List Char), (∀ c ∈ xs, p c = true) →
      List.dropWhile p (xs ++ ys) = List.dropWhile p ys := by
  intro xs
  induction xs with
  | nil => intro ys _; rfl
  | cons x xs' ih =>
      intro ys hxs
      simp only [List.cons_append, List.dropWhile, hxs x (by simp)]
      exact ih ys (fun c hc => hxs c (List.mem_cons_of_mem _ hc))

/-- The first `</think>` of a well-formed tagged response sits right
after the reasoning block (the reasoning itself contains no `<`). -/
lemma findSub_think_end (r rest : String)
    (hr : ∀ c ∈ r.data, (c == '<') = false) :
    findSub ("<think>".data ++ (r.data ++ ("</think>".data ++ rest.data)))
        ('<' :: "/think>".data) = some (7 + r.data.length) := by
  have hshape : "<think>".data ++ (r.data ++ ("</think>".data ++ rest.data)) =
      '<' :: (("think>".data ++ r.data) ++ ('<' :: ("/think>".data ++ rest.data))) := by
    simp
  rw [hshape]
  have hpre : ('<' :: "/think>".data).isPrefixOf
      ('<' :: (("think>".data ++ r.data) ++ ('<' :: ("/think>".data ++ rest.data)))) = false := by
    have hcons : ("think>".data ++ r.data) ++ ('<' :: ("/think>".data ++ rest.data)) =
        't' :: (("hink>".data ++ r.data) ++ ('<' :: ("/think>".data ++ rest.data))) := by
      simp
    rw [hcons]
    simp [List.isPrefixOf]
  have hstep : findSub
      ('<' :: (("think>".data ++ r.data) ++ ('<' :: ("/think>".data ++ rest.data))))
      ('<' :: "/think>".data) =
      if ('<' :: "/think>".data).isPrefixOf
          ('<' :: (("think>".data ++ r.data) ++ ('<' :: ("/think>".data ++ rest.data)))) then
        some 0
      else (findSub (("think>".data ++ r.data) ++ ('<' :: ("/think>".data ++ rest.data)))
        ('<' :: "/think>".data)).map (· + 1) := rfl
  rw [hstep, hpre]
  simp only [Bool.false_eq_true, if_false]
  have hclass := findSub_append_class (fun c => c == '<') '<' "/think>".data rfl
    ("think>".data ++ r.data) ('<' :: ("/think>".data ++ rest.data))
    (by
      intro c hc
      rcases List.mem_append.mp hc with hc | hc
      · have hc2 : c ∈ ['t', 'h', 'i', 'n', 'k', '>'] := hc
        fin_cases hc2 <;> rfl
      · exact hr c hc)
  rw [hclass]
  have hzero : findSub ('<' :: ("/think>".data ++ rest.data)) ('<' :: "/think>".data) = some 0 := by
    have hp : ('<' :: "/think>".data).isPrefixOf ('<' :: ("/think>".data ++ rest.data)) = true := by
      have := List.isPrefixOf_iff_prefix.mpr
        (List.prefix_append ('<' :: "/think>".data) rest.data)
      simp only [List.cons_append] at this
      exact this
    have hstep2 : findSub ('<' :: ("/think>".data ++ rest.data)) ('<' :: "/think>".data) =
        if ('<' :: "/think>".data).isPrefixOf ('<' :: ("/think>".data ++ rest.data)) then some 0
        else (findSub ("/think>".data ++ rest.data) ('<' :: "/think>".data)).map (· + 1) := rfl
    rw [hstep2, hp]
    rfl
  rw [hzero]
  simp [List.length_append]
  omega

/-- Reasoning capture: a `<think>`-tagged response splits into the
trimmed reasoning and the trimmed remainder, which alone is passed on. -/
lemma stripReasoning_think (r rest : String)
    (hr : ∀ c ∈ r.data, (c == '<') = false) :
    stripReasoning ("<think>" ++ r ++ "</think>" ++ rest) = (pyStrip r, pyStrip rest) := by
  have hdata : ("<think>" ++ r ++ "</think>" ++ rest).data =
      "<think>".data ++ (r.data ++ ("</think>".data ++ rest.data)) := by
    simp
  have hpre1 : "<think>".data.isPrefixOf
      ("<think>".data ++ (r.data ++ ("</think>".data ++ rest.data))) = true :=
    List.isPrefixOf_iff_prefix.mpr (List.prefix_append _ _)
  have hcont1 : strContains ("<think>" ++ r ++ "</think>" ++ rest) "<think>" = true := by
    show occursIn "<think>".data ("<think>" ++ r ++ "</think>" ++ rest).data = true
    rw [hdata]
    have hcons : "<think>".data ++ (r.data ++ ("</think>".data ++ rest.data)) =
        '<' :: ("think>".data ++ (r.data ++ ("</think>".data ++ rest.data))) := by simp
    rw [hcons] at hpre1 ⊢
    simp [occursIn, hpre1]
  have hcont2 : strContains ("<think>" ++ r ++ "</think>" ++ rest) "</think>" = true := by
    show occursIn "</think>".data ("<think>" ++ r ++ "</think>" ++ rest).data = true
    rw [hdata]
    apply occursIn_append_right
    apply occursIn_append_right
    have hp : "</think>".data.isPrefixOf ("</think>".data ++ rest.data) = true :=
      List.isPrefixOf_iff_prefix.mpr (List.prefix_append _ _)
    have hcons : "</think>".data ++ rest.data =
        '<' :: ("/think>".data ++ rest.data) := by simp
    rw [hcons] at hp ⊢
    simp [occursIn, hp]
  have hfind1 : findSub ("<think>" ++ r ++ "</think>" ++ rest).data "<think>".data = some 0 := by
    rw [hdata]
    have hcons : "<think>".data ++ (r.data ++ ("</think>".data ++ rest.data)) =
        '<' :: ("think>".data ++ (r.data ++ ("</think>".data ++ rest.data))) := by simp
    rw [hcons] at hpre1 ⊢
    simp [findSub, hpre1]
  have hfind2 : findSub ("<think>" ++ r ++ "</think>" ++ rest).data "</think>".data =
      some (7 + r.data.length) := by
    rw [hdata]
    exact findSub_think_end r rest hr
  unfold stripReasoning
  rw [hcont1, hcont2]
  simp only [Bool.and_self, if_true]
  rw [hfind1, hfind2]
  simp only [Option.getD_some]
  have hdrop7 : ("<think>" ++ r ++ "</think>" ++ rest).data.drop (0 + 7) =
      r.data ++ ("</think>".data ++ rest.data) := by
    rw [hdata]
    have h7 : ("<think>".data).length = 7 := rfl
    rw [show (0 + 7) = ("<think>".data).length from rfl]
    exact List.drop_left _ _
  have htake : (r.data ++ ("</think>".data ++ rest.data)).take (7 + r.data.length - (0 + 7)) =
      r.data := by
    rw [show (7 + r.data.length - (0 + 7)) = r.data.length by omega]
    rw [show (r.data.length = (r.data).length) from rfl]
    exact List.take_left _ _
  have hdropEnd : ("<think>" ++ r ++ "</think>" ++ rest).data.drop (7 + r.data.length + 8) =
      rest.data := by
    have hgroup : ("<think>" ++ r ++ "</think>" ++ rest).data =
        ("<think>" ++ r ++ "</think>").data ++ rest.data := by simp
    have hlen : (("<think>" ++ r ++ "</think>").data).length = 7 + r.data.length + 8 := by
      show ("<think>".data ++ r.data ++ "</think>".data).length = 7 + r.data.length + 8
      rw [List.length_append, List.length_append]
      have h1 : ("<think>".data).length = 7 := rfl
      have h2 : ("</think>".data).length = 8 := rfl
      omega
    rw [hgroup, ← hlen]
    exact List.drop_left _ _
  rw [hdrop7, htake, hdropEnd]

/-- Without any tag opener the content passes through untouched. -/
lemma stripReasoning_no_tags (content : String)
    (h : ∀ c ∈ content.data, (c == '<') = false) :
    stripReasoning content = ("", content) := by
  have h1 : strContains content "<think>" = false :=
    occursIn_head_class (fun c => c == '<') '<' "think>".data rfl content.data h
  have h2 : strContains content "<thinking>" = false :=
    occursIn_head_class (fun c => c == '<') '<' "thinking>".data rfl content.data h
  unfold stripReasoning
  rw [h1, h2]
  simp

/-- Fence stripping: a ```` ```json ````-fenced body is unwrapped and
trimmed. -/
lemma cleanFences_wraps (s : String) (h : ∀ c ∈ s.data, c ≠ '`') :
    cleanFences ("```json" ++ s ++ "```") = pyStrip s := by
  have step1 : pyReplaceDel ("```json" ++ s ++ "```") "```json" = String.mk (s.data ++ "```".data) := by
    show String.mk (replDel '`' "``json".data ("```json" ++ s ++ "```").data 0) = _
    have hdata : ("```json" ++ s ++ "```").data =
        ('`' :: "``json".data) ++ (s.data ++ "```".data) := by simp
    rw [hdata, replDel_head_match]
    rw [replDel_no_match '`' "``json".data s.data "```".data h]
    have : replDel '`' "``json".data "```".data 0 = "```".data := by decide
    rw [this]
  have step2 : pyReplaceDel (String.mk (s.data ++ "```".data)) "```" = String.mk s.data := by
    show String.mk (replDel '`' "``".data (s.data ++ "```".data) 0) = _
    rw [replDel_no_match '`' "``".data s.data "```".data h]
    have : replDel '`' "``".data "```".data 0 = [] := by decide
    rw [this]
    simp
  unfold cleanFences
  rw [step1, step2]

/-- No opening brace, no regex match. -/
lemma braceSpan_none (s : List Char) (h : ∀ c ∈ s, c ≠ '{') : braceSpan s = none := by
  unfold braceSpan
  have : s.dropWhile (fun c => !(c == '{')) = [] := by
    rw [List.dropWhile_eq_nil_iff]
    intro x hx
    simp [h x hx]
  rw [this]

/-- The regex `\x7b.*\x7d` (DOTALL) matches from the first opening brace
to the last closing brace. -/
lemma braceSpan_sandwich (pre mid post : List Char)
    (hpre : ∀ c ∈ pre, c ≠ '{') (hpost : ∀ c ∈ post, c ≠ '}') :
    braceSpan (pre ++ ('{' :: (mid ++ ('}' :: post)))) = some ('{' :: (mid ++ ['}'])) := by
  have hdrop : (pre ++ ('{' :: (mid ++ ('}' :: post)))).dropWhile (fun c => !(c == '{')) =
      '{' :: (mid ++ ('}' :: post)) := by
    rw [dropWhile_append_all _ pre _ (fun c hc => by simp [hpre c hc])]
    simp [List.dropWhile]
  have h1 : braceSpan (pre ++ ('{' :: (mid ++ ('}' :: post)))) =
      (match ('{' :: (mid ++ ('}' :: post))).reverse.dropWhile (fun ch => !(ch == '}')) with
        | [] => none
        | r => some r.reverse) := by
    unfold braceSpan
    rw [hdrop]
  have hrev : ('{' :: (mid ++ ('}' :: post))).reverse =
      post.reverse ++ ('}' :: (mid.reverse ++ ['{'])) := by
    simp
  have hdrop2 : (post.reverse ++ ('}' :: (mid.reverse ++ ['{']))).dropWhile
      (fun ch => !(ch == '}')) = '}' :: (mid.reverse ++ ['{']) := by
    rw [dropWhile_append_all _ post.reverse _
      (fun c hc => by simp [hpost c (List.mem_reverse.mp hc)])]
    simp [List.dropWhile]
  rw [h1, hrev, hdrop2]
  show some (('}' :: (mid.reverse ++ ['{'])).reverse) = some ('{' :: (mid ++ ['}']))
  simp

/-- C6 (amended).  Defensive response extraction: (a) `<think>` reasoning
delimiters are stripped with their content captured separately and only
the remainder parsed, and tag-free content passes through; (b) markdown
code fences are stripped; (c) a direct JSON parse is attempted first;
(d) on failure the fallback parses the span from the first opening brace
to the last closing brace - greedy and with NO requirement that the
three field names appear (the three-field-name regex exists only in the
generation client's structured-output fallback, not here); with no brace
span the result is the `Could not parse JSON` error; and the extractor
composes these steps. -/
theorem extraction_spec (jl : String → Except String Json) :
    (∀ r rest : String, (∀ c ∈ r.data, (c == '<') = false) →
        stripReasoning ("<think>" ++ r ++ "</think>" ++ rest) = (pyStrip r, pyStrip rest))
    ∧ (∀ content : String, (∀ c ∈ content.data, (c == '<') = false) →
        stripReasoning content = ("", content))
    ∧ (∀ s : String, (∀ c ∈ s.data, c ≠ '`') →
        cleanFences ("```json" ++ s ++ "```") = pyStrip s)
    ∧ (∀ s j, jl s = Except.ok j → parseWithBraceFallback jl s = Except.ok j)
    ∧ (∀ (pre mid post e : String),
        jl (pre ++ "\x7b" ++ mid ++ "\x7d" ++ post) = Except.error e →
        (∀ c ∈ pre.data, c ≠ '{') → (∀ c ∈ post.data, c ≠ '}') →
        parseWithBraceFallback jl (pre ++ "\x7b" ++ mid ++ "\x7d" ++ post) = jl ("\x7b" ++ mid ++ "\x7d"))
    ∧ (∀ s e, jl s = Except.error e → (∀ c ∈ s.data, c ≠ '{') →
        parseWithBraceFallback jl s = Except.error ("Could not parse JSON from: " ++ s))
    ∧ (∀ content j,
        parseWithBraceFallback jl (cleanFences (stripReasoning content).2) = Except.ok j →
        extract_reasoning_and_json jl content = Except.ok ((stripReasoning content).1, j))
    ∧ (∀ content e,
        parseWithBraceFallback jl (cleanFences (stripReasoning content).2) = Except.error e →
        extract_reasoning_and_json jl content = Except.error e) := by
  refine ⟨stripReasoning_think, stripReasoning_no_tags, cleanFences_wraps, ?_, ?_, ?_, ?_, ?_⟩
  · intro s j h
    unfold parseWithBraceFallback
    rw [h]
  · intro pre mid post e herr hpre hpost
    unfold parseWithBraceFallback
    rw [herr]
    have hdata : (pre ++ "\x7b" ++ mid ++ "\x7d" ++ post).data =
        pre.data ++ ('{' :: (mid.data ++ ('}' :: post.data))) := by
      simp
    rw [hdata, braceSpan_sandwich pre.data mid.data post.data hpre hpost]
    show jl (String.mk ('{' :: (mid.data ++ ['}']))) = jl ("\x7b" ++ mid ++ "\x7d")
    congr 1
  · intro s e herr hnb
    unfold parseWithBraceFallback
    rw [herr]
    rw [braceSpan_none s.data hnb]
  · intro content j h
    show (match parseWithBraceFallback jl (cleanFences (stripReasoning content).2) with
      | Except.ok j => Except.ok ((stripReasoning content).1, j)
      | Except.error e => Except.error e) = Except.ok ((stripReasoning content).1, j)
    rw [h]
  · intro content e h
    show (match parseWithBraceFallback jl (cleanFences (stripReasoning content).2) with
      | Except.ok j => Except.ok ((stripReasoning content).1, j)
      | Except.error e => Except.error e) = Except.error e
    rw [h]

/-- Counterexample for C6 as stated: on `"noise \x7b"a": 1\x7d tail"` -
which contains none of the three required field names, so the claim's
(d) mandates a parsing error - `extract_reasoning_and_json` succeeds,
recovering the field-name-free object `\x7b"a": 1\x7d` (the greedy brace
span), while the direct parse of the whole string fails. -/
theorem extraction_counterexample :
    extract_reasoning_and_json jsonLoads "noise \x7b\"a\": 1\x7d tail" =
      Except.ok ("", Json.obj [("a", Json.num 1)])
    ∧ strContains "noise \x7b\"a\": 1\x7d tail" "modules" = false
    ∧ strContains "noise \x7b\"a\": 1\x7d tail" "curriculum_refs" = false
    ∧ strContains "noise \x7b\"a\": 1\x7d tail" "objectives" = false
    ∧ jsonLoads "noise \x7b\"a\": 1\x7d tail" =
        Except.error ("Expecting value: " ++ "noise \x7b\"a\": 1\x7d tail") :=
  ⟨rfl, by decide, by decide, by decide, rfl⟩

/-- Witness for C6 at concrete tagged, fenced and brace-embedded
inputs. -/
theorem extraction_spec_witness :
    stripReasoning ("<think>" ++ " my reasoning " ++ "</think>" ++ "rest text") =
      (pyStrip " my reasoning ", pyStrip "rest text")
    ∧ cleanFences ("```json" ++ "\x7b\"a\": 1\x7d" ++ "```") = pyStrip "\x7b\"a\": 1\x7d"
    ∧ parseWithBraceFallback jsonLoads ("noise " ++ "\x7b" ++ "\"a\": 1" ++ "\x7d" ++ " tail") =
        jsonLoads ("\x7b" ++ "\"a\": 1" ++ "\x7d") := by
  have h := extraction_spec jsonLoads
  refine ⟨h.1 " my reasoning " "rest text" (by decide), ?_, ?_⟩
  · exact h.2.2.1 "\x7b\"a\": 1\x7d" (by decide)
  · exact h.2.2.2.2.1 "noise " "\"a\": 1" " tail"
      ("Expecting value: " ++ ("noise " ++ "\x7b" ++ "\"a\": 1" ++ "\x7d" ++ " tail"))
      (by rfl) (by decide) (by decide)
